import Mathlib

/-!
Verification of the geo-astronomical computation layer of the `uearth`
visualizer: coordinate conversions, great-circle interpolation, haversine
distance, solar geometry, Kepler orbital mechanics, the time-advance state
transition of the store, and the cross-view line reprojection of the 3D
globe component.  All real-valued code is embedded over `ℝ`; JavaScript's
`Math.atan2` is embedded as an explicit piecewise function, and the one
place where the source divides by a quantity that can be zero (producing
NaN in JavaScript) is modelled with `Option`.
-/

noncomputable section

open Real Classical

/-- Geographic coordinate, latitude and longitude in degrees
(`GeoCoordinates` in `src/store/geoStore.ts`). -/
structure GeoCoordinates where
  lat : ℝ
  lon : ℝ

/-- JavaScript's `Math.atan2 (y, x)`: the angle in `(-π, π]` of the point
`(x, y)`, with `atan2 0 0 = 0`.  This matches the MDN specification case by
case (real numbers carry no signed zero). -/
def atan2 (y x : ℝ) : ℝ :=
  if 0 < x then Real.arctan (y / x)
  else if x < 0 then
    (if 0 ≤ y then Real.arctan (y / x) + π else Real.arctan (y / x) - π)
  else
    (if 0 < y then π / 2 else if y < 0 then -(π / 2) else 0)

/-- Earth's axial tilt in radians (`AXIAL_TILT` in `solarCalculations.ts`). -/
def AXIAL_TILT : ℝ := 23.5 * (π / 180)

/-- `calculateSubsolarPoint` from `solarCalculations.ts`.  The source takes a
`Date` and first extracts the day of year (an integer obtained by flooring)
and the fractional hour `getUTCHours() + getUTCMinutes() / 60`; those two
extracted values are the parameters here. -/
def calculateSubsolarPoint (dayOfYear hours : ℝ) : GeoCoordinates :=
  let declination := AXIAL_TILT * Real.sin (2 * π / 365 * (dayOfYear - 81))
  let lat := declination * (180 / π)
  let lon := -15 * (hours - 12)
  ⟨lat, lon⟩

/-- The exact value of the IEEE-754 double constant `Math.PI`:
`884279719003555 / 2^48 = 3.14159265358979311599796…`, the nearest double
below the real `π`.  The cartesian conversions below use this exact constant
rather than the idealisation `Math.PI = π`, because their behaviour at the
poles depends on it: the program computes `cos(90 * Math.PI / 180)` with
`90 * Math.PI / 180` strictly below the real `π / 2`, so the cosine is a
small positive number and the longitude direction survives in `x` and `z`.
In the purely trigonometric-identity claims elsewhere in this file the
idealisation is harmless and `π` is used. -/
def MATH_PI : ℝ := 884279719003555 / 281474976710656

/-- `latLonToCartesian` from `solarCalculations.ts`: lat/lon (degrees) to 3D
cartesian on a sphere of the given radius, with the longitude negated.
`Math.PI` is embedded exactly as the double constant `MATH_PI`. -/
def latLonToCartesian (lat lon radius : ℝ) : ℝ × ℝ × ℝ :=
  let latRad := lat * (MATH_PI / 180)
  let lonRad := -lon * (MATH_PI / 180)
  (radius * Real.cos latRad * Real.cos lonRad,
   radius * Real.sin latRad,
   radius * Real.cos latRad * Real.sin lonRad)

/-- `cartesianToLatLon` from `solarCalculations.ts`: inverse conversion,
undoing the negated-longitude convention.  `Math.PI` is embedded exactly as
the double constant `MATH_PI`. -/
def cartesianToLatLon (x y z : ℝ) : GeoCoordinates :=
  let radius := Real.sqrt (x * x + y * y + z * z)
  ⟨Real.arcsin (y / radius) * (180 / MATH_PI), -atan2 z x * (180 / MATH_PI)⟩

/-- `greatCirclePoints` from `solarCalculations.ts`.  The source computes the
angular distance `d` and then divides by `Math.sin d` (and by `numPoints`)
for each sample; when `sin d = 0` (coincident or antipodal endpoints) or
`numPoints = 0` this division produces NaN/Infinity in JavaScript and every
returned coordinate is garbage — that failure is modelled as `none`. -/
def greatCirclePoints (start finish : GeoCoordinates) (numPoints : ℕ) :
    Option (List GeoCoordinates) :=
  let lat1 := start.lat * (π / 180)
  let lon1 := start.lon * (π / 180)
  let lat2 := finish.lat * (π / 180)
  let lon2 := finish.lon * (π / 180)
  let d := Real.arccos (Real.sin lat1 * Real.sin lat2 +
    Real.cos lat1 * Real.cos lat2 * Real.cos (lon2 - lon1))
  if Real.sin d = 0 ∨ numPoints = 0 then none
  else some <| (List.range (numPoints + 1)).map fun i : ℕ =>
    let f := (i : ℝ) / numPoints
    let A := Real.sin ((1 - f) * d) / Real.sin d
    let B := Real.sin (f * d) / Real.sin d
    let x := A * Real.cos lat1 * Real.cos lon1 + B * Real.cos lat2 * Real.cos lon2
    let y := A * Real.cos lat1 * Real.sin lon1 + B * Real.cos lat2 * Real.sin lon2
    let z := A * Real.sin lat1 + B * Real.sin lat2
    ⟨atan2 z (Real.sqrt (x * x + y * y)) * (180 / π),
     atan2 y x * (180 / π)⟩

/-- `haversineDistance` from `solarCalculations.ts`: great-circle distance in
km between two coordinates, Earth radius 6371 km. -/
def haversineDistance (start finish : GeoCoordinates) : ℝ :=
  let R : ℝ := 6371
  let lat1 := start.lat * (π / 180)
  let lat2 := finish.lat * (π / 180)
  let dLat := (finish.lat - start.lat) * (π / 180)
  let dLon := (finish.lon - start.lon) * (π / 180)
  let a := Real.sin (dLat / 2) * Real.sin (dLat / 2) +
    Real.cos lat1 * Real.cos lat2 * Real.sin (dLon / 2) * Real.sin (dLon / 2)
  let c := 2 * atan2 (Real.sqrt a) (Real.sqrt (1 - a))
  R * c

/-- The fixed-point iteration `E ← M + e·sin E` used (10 times, starting from
`M`) by both `calculateEarthSunDistance` and `calculateOrbitalAngle` to solve
Kepler's equation.  `keplerIter e M n` is the value after `n` loop
iterations. -/
def keplerIter (e M : ℝ) : ℕ → ℝ
  | 0 => M
  | n + 1 => M + e * Real.sin (keplerIter e M n)

/-- The `trueAnomaly` computed internally by `calculateEarthSunDistance` in
`solarCalculations.ts` (its `ECCENTRICITY` is derived from the perihelion and
aphelion distances 147.1 and 152.1). -/
def earthSunTrueAnomaly (dayOfYear : ℝ) : ℝ :=
  let ECCENTRICITY : ℝ := (152.1 - 147.1) / (152.1 + 147.1)
  let PERIHELION_DAY : ℝ := 3
  let meanAnomaly := (dayOfYear - PERIHELION_DAY) / 365.25 * (2 * π)
  let eccentricAnomaly := keplerIter ECCENTRICITY meanAnomaly 10
  2 * atan2 (Real.sqrt (1 + ECCENTRICITY) * Real.sin (eccentricAnomaly / 2))
    (Real.sqrt (1 - ECCENTRICITY) * Real.cos (eccentricAnomaly / 2))

/-- `calculateEarthSunDistance` from `solarCalculations.ts`: Earth–Sun
distance in millions of km for a day of year, by solving Kepler's equation
and applying the orbit equation. -/
def calculateEarthSunDistance (dayOfYear : ℝ) : ℝ :=
  let PERIHELION_DISTANCE : ℝ := 147.1
  let APHELION_DISTANCE : ℝ := 152.1
  let SEMI_MAJOR_AXIS := (PERIHELION_DISTANCE + APHELION_DISTANCE) / 2
  let ECCENTRICITY :=
    (APHELION_DISTANCE - PERIHELION_DISTANCE) / (APHELION_DISTANCE + PERIHELION_DISTANCE)
  let trueAnomaly := earthSunTrueAnomaly dayOfYear
  SEMI_MAJOR_AXIS * (1 - ECCENTRICITY * ECCENTRICITY) /
    (1 + ECCENTRICITY * Real.cos trueAnomaly)

/-- `calculateOrbitalAngle` from `solarCalculations.ts`: the true anomaly used
to position Earth on its orbit.  Note its `ECCENTRICITY` is the hard-coded
literal `0.0167`, not the value derived from the distances. -/
def calculateOrbitalAngle (dayOfYear : ℝ) : ℝ :=
  let PERIHELION_DAY : ℝ := 3
  let ECCENTRICITY : ℝ := 0.0167
  let meanAnomaly := (dayOfYear - PERIHELION_DAY) / 365.25 * (2 * π)
  let eccentricAnomaly := keplerIter ECCENTRICITY meanAnomaly 10
  2 * atan2 (Real.sqrt (1 + ECCENTRICITY) * Real.sin (eccentricAnomaly / 2))
    (Real.sqrt (1 - ECCENTRICITY) * Real.cos (eccentricAnomaly / 2))

/-- The true-anomaly formula that `calculateOrbitalAngle` and the inside of
`calculateEarthSunDistance` both implement, abstracted over the eccentricity
constant (the only thing the two copies of the code differ in): mean anomaly
from perihelion day 3 over a 365.25-day year, ten fixed-point iterations of
Kepler's equation, then the half-angle arctangent conversion. -/
def keplerTrueAnomaly (e dayOfYear : ℝ) : ℝ :=
  let meanAnomaly := (dayOfYear - 3) / 365.25 * (2 * π)
  let eccentricAnomaly := keplerIter e meanAnomaly 10
  2 * atan2 (Real.sqrt (1 + e) * Real.sin (eccentricAnomaly / 2))
    (Real.sqrt (1 - e) * Real.cos (eccentricAnomaly / 2))

/-- The drawing views of the store (`sourceView` of a `LineSegment` in
`geoStore.ts`). -/
inductive SourceView
  | globe
  | mercator
  | azimuthal
  | solar
deriving DecidableEq

/-- `LineSegment` from `geoStore.ts`.  The source's `end` field is named
`finish` here because `end` is a Lean keyword. -/
structure LineSegment where
  id : String
  start : GeoCoordinates
  finish : GeoCoordinates
  sourceView : SourceView
  color : String
  distance : ℝ

/-- `LINE_COLORS` from `geoStore.ts`. -/
def LINE_COLORS : List String :=
  ["#06b6d4", "#8b5cf6", "#ec4899", "#f59e0b", "#10b981",
   "#ef4444", "#3b82f6", "#f97316", "#14b8a6", "#a855f7"]

/-- `addLine` from `geoStore.ts`, restricted to the `lines` field of the
store state (the other fields it touches are reset to `null`).  The source's
randomly generated id (`generateId`) is taken as the parameter `newId`; the
caller-supplied color is overridden by the automatic palette color. -/
def addLine (lines : List LineSegment) (start finish : GeoCoordinates)
    (sourceView : SourceView) (_color newId : String) : List LineSegment :=
  let colorIndex := lines.length % LINE_COLORS.length
  let autoColor := LINE_COLORS.getD colorIndex ""
  lines ++ [{ id := newId, start := start, finish := finish,
              sourceView := sourceView, color := autoColor,
              distance := haversineDistance start finish }]

/-- The `while (newHour >= 24) { newHour -= 24; newDay += 1 }` loop of
`advanceTime` in `geoStore.ts`. -/
def wrapHourDown (h : ℝ) (d : ℤ) : ℝ × ℤ :=
  if 24 ≤ h then wrapHourDown (h - 24) (d + 1) else (h, d)
termination_by (⌈h⌉ - 23).toNat
decreasing_by
  have h24 : (24 : ℤ) ≤ ⌈h⌉ := by
    rw [Int.le_ceil_iff]
    push_cast
    linarith [‹(24 : ℝ) ≤ h›]
  have hc : ⌈h - 24⌉ = ⌈h⌉ - 24 := by
    exact_mod_cast Int.ceil_sub_int h (24 : ℤ)
  omega

/-- The `while (newHour < 0) { newHour += 24; newDay -= 1 }` loop of
`advanceTime` in `geoStore.ts`. -/
def wrapHourUp (h : ℝ) (d : ℤ) : ℝ × ℤ :=
  if h < 0 then wrapHourUp (h + 24) (d - 1) else (h, d)
termination_by (1 - ⌈h⌉).toNat
decreasing_by
  have h0 : ⌈h⌉ ≤ 0 := Int.ceil_le.mpr (by simpa using le_of_lt ‹h < 0›)
  have hc : ⌈h + 24⌉ = ⌈h⌉ + 24 := by
    exact_mod_cast Int.ceil_add_int h (24 : ℤ)
  omega

/-- The `while (newDay > 365) { newDay -= 365 }` loop of `advanceTime`. -/
def wrapDayDown (d : ℤ) : ℤ :=
  if 365 < d then wrapDayDown (d - 365) else d
termination_by (d - 365).toNat
decreasing_by omega

/-- The `while (newDay < 1) { newDay += 365 }` loop of `advanceTime`. -/
def wrapDayUp (d : ℤ) : ℤ :=
  if d < 1 then wrapDayUp (d + 365) else d
termination_by (1 - d).toNat
decreasing_by omega

/-- `advanceTime` from `geoStore.ts`, restricted to the `(hourOfDay,
dayOfYear)` part of the state it transforms (the derived `dateTime` field is
recomputed from these two and is not modelled).  `dayOfYear` is an integer in
the store (it is initialized to a floored value and only ever shifted by
whole days). -/
def advanceTime (animationSpeed deltaSeconds hourOfDay : ℝ) (dayOfYear : ℤ) :
    ℝ × ℤ :=
  let hoursToAdd := deltaSeconds * animationSpeed
  let p := wrapHourDown (hourOfDay + hoursToAdd) dayOfYear
  let q := wrapHourUp p.1 p.2
  let d := wrapDayUp (wrapDayDown q.2)
  (q.1, d)

/-- Modelled from the spec (§4.1): the azimuthal-equidistant projection used
by the `azimuthal` branch of `DrawnLine` in `Globe3D.tsx`.  The component
calls the external `d3-geo` `geoAzimuthalEquidistant().rotate([0,-90])`
(centered on the North Pole), whose code is not part of this repository;
per the spec the forward map sends a coordinate to the plane point at radial
distance proportional to the colatitude `90 - lat` and polar angle equal to
the longitude.  Any planar isometry/scaling separating this convention from
d3's commutes with the straight-line interpolation done between the two
projected endpoints, so the reprojected geographic path is unaffected. -/
def toAzimuthal (c : GeoCoordinates) : ℝ × ℝ :=
  ((90 - c.lat) * Real.sin (c.lon * (π / 180)),
   (90 - c.lat) * Real.cos (c.lon * (π / 180)))

/-- Modelled from the spec (§4.1): inverse azimuthal-equidistant projection;
points beyond the disc radius (colatitude 180) have no preimage and yield
`none`, matching d3's `invert` returning no coordinate there. -/
def fromAzimuthal (p : ℝ × ℝ) : Option GeoCoordinates :=
  let ρ := Real.sqrt (p.1 * p.1 + p.2 * p.2)
  if ρ ≤ 180 then some ⟨90 - ρ, atan2 p.1 p.2 * (180 / π)⟩ else none

/-- Modelled from the spec (§4.1): the Mercator projection used by the
`mercator` branch of `DrawnLine` (the external `d3-geo` `geoMercator`). -/
def toMercator (c : GeoCoordinates) : ℝ × ℝ :=
  (c.lon * (π / 180),
   Real.log (Real.tan (π / 4 + c.lat * (π / 180) / 2)))

/-- Modelled from the spec (§4.1): inverse Mercator projection. -/
def fromMercator (p : ℝ × ℝ) : Option GeoCoordinates :=
  some ⟨(2 * Real.arctan (Real.exp p.2) - π / 2) * (180 / π), p.1 * (180 / π)⟩

/-- The geographic path computed by `DrawnLine` in `Globe3D.tsx` before the
points are mapped onto the 3D globe: a great circle for a globe-drawn line
(and for the default branch), and the inverse-projected straight segment in
projection space for an azimuthal- or Mercator-drawn line (100 sub-intervals,
unprojectable samples skipped). -/
def drawnLinePathPoints (line : LineSegment) : Option (List GeoCoordinates) :=
  match line.sourceView with
  | .globe => greatCirclePoints line.start line.finish 100
  | .azimuthal =>
    let startAz := toAzimuthal line.start
    let endAz := toAzimuthal line.finish
    some <| (List.range 101).filterMap fun i : ℕ =>
      let t := (i : ℝ) / 100
      fromAzimuthal (startAz.1 + t * (endAz.1 - startAz.1),
                     startAz.2 + t * (endAz.2 - startAz.2))
  | .mercator =>
    let startM := toMercator line.start
    let endM := toMercator line.finish
    some <| (List.range 101).filterMap fun i : ℕ =>
      let t := (i : ℝ) / 100
      fromMercator (startM.1 + t * (endM.1 - startM.1),
                    startM.2 + t * (endM.2 - startM.2))
  | .solar => greatCirclePoints line.start line.finish 100

/-- London, as drawn in the spec's cross-view scenario. -/
def London : GeoCoordinates := ⟨51.5, 0⟩

/-- Cape Town, as drawn in the spec's cross-view scenario. -/
def CapeTown : GeoCoordinates := ⟨-33.9, 18.4⟩

/-- The London–Cape Town line drawn on the azimuthal ("flat Earth") view. -/
def azLineLC : LineSegment :=
  ⟨"lc", London, CapeTown, .azimuthal, "#06b6d4",
   haversineDistance London CapeTown⟩

/-! ### Basic facts about the embedded `Math.atan2` -/

lemma atan2_of_pos {y x : ℝ} (hx : 0 < x) : atan2 y x = Real.arctan (y / x) := by
  simp [atan2, hx]

lemma atan2_zero_of_pos {x : ℝ} (hx : 0 < x) : atan2 0 x = 0 := by
  simp [atan2_of_pos hx]

lemma atan2_one_zero : atan2 1 0 = π / 2 := by
  norm_num [atan2]

lemma cos_arctan_div_of_pos {y x : ℝ} (hx : 0 < x) :
    Real.cos (Real.arctan (y / x)) = x / Real.sqrt (x ^ 2 + y ^ 2) := by
  rw [Real.cos_arctan]
  have h1 : 1 + (y / x) ^ 2 = (x ^ 2 + y ^ 2) / x ^ 2 := by
    field_simp
  rw [h1, Real.sqrt_div (by positivity) (x ^ 2), Real.sqrt_sq hx.le]
  rw [div_div_eq_mul_div, one_mul]

lemma sin_arctan_div_of_pos {y x : ℝ} (hx : 0 < x) :
    Real.sin (Real.arctan (y / x)) = y / Real.sqrt (x ^ 2 + y ^ 2) := by
  rw [Real.sin_arctan]
  have h1 : 1 + (y / x) ^ 2 = (x ^ 2 + y ^ 2) / x ^ 2 := by
    field_simp
  rw [h1, Real.sqrt_div (by positivity) (x ^ 2), Real.sqrt_sq hx.le]
  have hs : Real.sqrt (x ^ 2 + y ^ 2) ≠ 0 := by
    have : (0 : ℝ) < x ^ 2 + y ^ 2 := by positivity
    positivity
  field_simp

lemma cos_atan2 {y x : ℝ} (h : x ≠ 0 ∨ y ≠ 0) :
    Real.cos (atan2 y x) = x / Real.sqrt (x ^ 2 + y ^ 2) := by
  rcases lt_trichotomy x 0 with hx | hx | hx
  · have hx' : (0 : ℝ) < -x := by linarith
    have key : Real.cos (Real.arctan (y / x)) = -(x / Real.sqrt (x ^ 2 + y ^ 2)) := by
      have : y / x = -y / -x := by field_simp
      rw [this, cos_arctan_div_of_pos hx']
      rw [show (-x) ^ 2 + (-y) ^ 2 = x ^ 2 + y ^ 2 by ring]
      ring
    rcases le_or_lt 0 y with hy | hy
    · simp only [atan2, if_neg (by linarith : ¬(0 : ℝ) < x), if_pos hx, if_pos hy]
      rw [Real.cos_add_pi, key]
      ring
    · simp only [atan2, if_neg (by linarith : ¬(0 : ℝ) < x), if_pos hx,
        if_neg (by linarith : ¬(0 : ℝ) ≤ y)]
      rw [sub_eq_add_neg, Real.cos_add, Real.cos_neg, Real.sin_neg, Real.cos_pi,
        Real.sin_pi, key]
      ring
  · subst hx
    have hy : y ≠ 0 := h.resolve_left (by simp)
    rcases lt_trichotomy y 0 with hy' | hy' | hy'
    · simp only [atan2, lt_irrefl, if_neg (lt_irrefl (0 : ℝ)),
        if_neg (by norm_num : ¬(0 : ℝ) < (0 : ℝ)), if_neg (by linarith : ¬(0 : ℝ) < y),
        if_pos hy']
      simp
    · exact absurd hy' hy
    · simp only [atan2, if_neg (by norm_num : ¬(0 : ℝ) < (0 : ℝ)),
        if_neg (lt_irrefl (0 : ℝ)), if_pos hy']
      simp
  · rw [atan2_of_pos hx, cos_arctan_div_of_pos hx]

lemma sin_atan2 {y x : ℝ} (h : x ≠ 0 ∨ y ≠ 0) :
    Real.sin (atan2 y x) = y / Real.sqrt (x ^ 2 + y ^ 2) := by
  rcases lt_trichotomy x 0 with hx | hx | hx
  · have hx' : (0 : ℝ) < -x := by linarith
    have key : Real.sin (Real.arctan (y / x)) = -(y / Real.sqrt (x ^ 2 + y ^ 2)) := by
      have : y / x = -y / -x := by field_simp
      rw [this, sin_arctan_div_of_pos hx']
      rw [show (-x) ^ 2 + (-y) ^ 2 = x ^ 2 + y ^ 2 by ring]
      ring
    rcases le_or_lt 0 y with hy | hy
    · simp only [atan2, if_neg (by linarith : ¬(0 : ℝ) < x), if_pos hx, if_pos hy]
      rw [Real.sin_add_pi, key]
      ring
    · simp only [atan2, if_neg (by linarith : ¬(0 : ℝ) < x), if_pos hx,
        if_neg (by linarith : ¬(0 : ℝ) ≤ y)]
      rw [sub_eq_add_neg, Real.sin_add, Real.cos_neg, Real.sin_neg, Real.cos_pi,
        Real.sin_pi, key]
      ring
  · subst hx
    have hy : y ≠ 0 := h.resolve_left (by simp)
    rcases lt_trichotomy y 0 with hy' | hy' | hy'
    · simp only [atan2, if_neg (lt_irrefl (0 : ℝ)),
        if_neg (by linarith : ¬(0 : ℝ) < y), if_pos hy']
      rw [Real.sin_neg, Real.sin_pi_div_two]
      rw [show (0 : ℝ) ^ 2 + y ^ 2 = y ^ 2 by ring, Real.sqrt_sq_eq_abs,
        abs_of_neg hy']
      field_simp
    · exact absurd hy' hy
    · simp only [atan2, if_neg (lt_irrefl (0 : ℝ)), if_pos hy']
      rw [Real.sin_pi_div_two]
      rw [show (0 : ℝ) ^ 2 + y ^ 2 = y ^ 2 by ring, Real.sqrt_sq_eq_abs,
        abs_of_pos hy']
      field_simp
  · rw [atan2_of_pos hx, sin_arctan_div_of_pos hx]

lemma atan2_mul_sin_cos {k θ : ℝ} (hk : 0 < k) (h1 : -π < θ) (h2 : θ ≤ π) :
    atan2 (k * Real.sin θ) (k * Real.cos θ) = θ := by
  have hratio : k * Real.sin θ / (k * Real.cos θ) = Real.tan θ := by
    rw [Real.tan_eq_sin_div_cos]
    rcases eq_or_ne (Real.cos θ) 0 with hc | hc
    · simp [hc]
    · field_simp
      ring
  rcases lt_trichotomy (Real.cos θ) 0 with hc | hc | hc
  · have hx : ¬(0 : ℝ) < k * Real.cos θ := by nlinarith
    have hx' : k * Real.cos θ < 0 := by nlinarith
    rcases le_or_lt 0 (Real.sin θ) with hs | hs
    · -- second quadrant: θ ∈ (π/2, π]
      have hθ0 : 0 ≤ θ := by
        by_contra hneg
        push_neg at hneg
        exact absurd (Real.sin_neg_of_neg_of_neg_pi_lt hneg h1) (not_lt.mpr hs)
      have hθhalf : π / 2 < θ := by
        by_contra hle
        push_neg at hle
        exact absurd (Real.cos_nonneg_of_mem_Icc ⟨by linarith [Real.pi_pos], hle⟩)
          (not_le.mpr hc)
      have hy : (0 : ℝ) ≤ k * Real.sin θ := by positivity
      simp only [atan2, if_neg hx, if_pos hx', if_pos hy, hratio]
      have htan : Real.tan θ = Real.tan (θ - π) := by
        rw [← Real.tan_periodic.sub_eq θ]
      rw [htan, Real.arctan_tan (by linarith [Real.pi_pos]) (by linarith [Real.pi_pos])]
      ring
    · -- third quadrant: θ ∈ (-π, -π/2)
      have hθ0 : θ < 0 := by
        by_contra hge
        push_neg at hge
        have : θ ≤ π := h2
        exact absurd (Real.sin_nonneg_of_nonneg_of_le_pi hge this) (not_le.mpr hs)
      have hθhalf : θ < -(π / 2) := by
        by_contra hle
        push_neg at hle
        exact absurd (Real.cos_nonneg_of_mem_Icc ⟨hle, by linarith [Real.pi_pos]⟩)
          (not_le.mpr hc)
      have hy : ¬(0 : ℝ) ≤ k * Real.sin θ := by nlinarith
      simp only [atan2, if_neg hx, if_pos hx', if_neg hy, hratio]
      have htan : Real.tan θ = Real.tan (θ + π) := by
        rw [← Real.tan_periodic θ]
      rw [htan, Real.arctan_tan (by linarith [Real.pi_pos]) (by linarith [Real.pi_pos])]
      ring
  · -- cos θ = 0: θ = π/2 or θ = -π/2
    obtain ⟨n, hn⟩ := Real.cos_eq_zero_iff.mp hc
    have hπ := Real.pi_pos
    have hub : (2 * (n : ℝ) + 1) ≤ 2 := by
      have h2' : (2 * (n : ℝ) + 1) * (π / 2) ≤ 2 * (π / 2) := by
        rw [hn] at h2
        linarith
      exact le_of_mul_le_mul_right h2' (by positivity)
    have hlb : (-2 : ℝ) < 2 * (n : ℝ) + 1 := by
      have h1' : (-2 : ℝ) * (π / 2) < (2 * (n : ℝ) + 1) * (π / 2) := by
        rw [hn] at h1
        linarith
      exact lt_of_mul_lt_mul_right h1' (by positivity)
    have hn0 : n = 0 ∨ n = -1 := by
      have u1 : (2 * n + 1 : ℤ) ≤ 2 := by exact_mod_cast hub
      have u2 : (-2 : ℤ) < 2 * n + 1 := by exact_mod_cast hlb
      omega
    rcases hn0 with h0 | h0 <;> subst h0
    · have hθ : θ = π / 2 := by
        rw [hn]
        push_cast
        ring
      subst hθ
      rw [show k * Real.sin (π / 2) = k by simp, show k * Real.cos (π / 2) = 0 by simp]
      simp only [atan2, if_neg (lt_irrefl (0 : ℝ)), if_pos hk]
    · have hθ : θ = -(π / 2) := by
        rw [hn]
        push_cast
        ring
      subst hθ
      rw [show k * Real.sin (-(π / 2)) = -k by simp, show k * Real.cos (-(π / 2)) = 0 by simp]
      have hy1 : ¬(0 : ℝ) < -k := by linarith
      have hy2 : -k < 0 := by linarith
      simp only [atan2, if_neg (lt_irrefl (0 : ℝ)), if_neg hy1, if_pos hy2]
  · -- first/fourth quadrant: θ ∈ (-π/2, π/2)
    have hx : (0 : ℝ) < k * Real.cos θ := by positivity
    rw [atan2_of_pos hx, hratio]
    have hθ1 : -(π / 2) < θ := by
      by_contra hle
      push_neg at hle
      have : Real.cos θ ≤ 0 := by
        have := Real.cos_nonpos_of_pi_div_two_le_of_le (x := -θ) (by linarith)
          (by linarith [Real.pi_pos])
        rwa [Real.cos_neg] at this
      linarith
    have hθ2 : θ < π / 2 := by
      by_contra hle
      push_neg at hle
      have : Real.cos θ ≤ 0 :=
        Real.cos_nonpos_of_pi_div_two_le_of_le hle (by linarith [Real.pi_pos])
      linarith
    exact Real.arctan_tan hθ1 hθ2

lemma abs_sin_le_abs (t : ℝ) : |Real.sin t| ≤ |t| := by
  have key : ∀ u : ℝ, 0 ≤ u → |Real.sin u| ≤ u := by
    intro u hu
    rcases le_or_lt u π with huπ | huπ
    · rw [abs_of_nonneg (Real.sin_nonneg_of_nonneg_of_le_pi hu huπ)]
      exact Real.sin_le hu
    · calc |Real.sin u| ≤ 1 := Real.abs_sin_le_one u
        _ ≤ π := by linarith [Real.pi_gt_three]
        _ ≤ u := huπ.le
  rcases le_or_lt 0 t with ht | ht
  · rw [abs_of_nonneg ht]
    exact key t ht
  · have heq : |Real.sin t| = |Real.sin (-t)| := by
      rw [Real.sin_neg, abs_neg]
    rw [heq, abs_of_neg ht]
    exact key (-t) (by linarith)

lemma abs_sin_sub_sin_le (a b : ℝ) : |Real.sin a - Real.sin b| ≤ |a - b| := by
  rw [Real.sin_sub_sin]
  calc |2 * Real.sin ((a - b) / 2) * Real.cos ((a + b) / 2)|
      = 2 * |Real.sin ((a - b) / 2)| * |Real.cos ((a + b) / 2)| := by
        rw [abs_mul, abs_mul]
        norm_num
    _ ≤ 2 * |(a - b) / 2| * 1 := by
        have h1 := abs_sin_le_abs ((a - b) / 2)
        have h2 := Real.abs_cos_le_one ((a + b) / 2)
        have h3 : (0 : ℝ) ≤ |Real.sin ((a - b) / 2)| := abs_nonneg _
        nlinarith [abs_nonneg ((a - b) / 2)]
    _ = |a - b| := by
        rw [abs_div]
        rw [abs_of_nonneg (by norm_num : (0:ℝ) ≤ 2)]
        ring

/-! ### Certified Taylor bounds for sine and cosine at small nonnegative
arguments, used for the concrete numeric evaluations below -/

lemma sin_leaf {x lo hi slo shi : ℝ} (h0 : 0 ≤ lo) (h1 : lo ≤ x) (h2 : x ≤ hi)
    (h3 : hi ≤ 1) (h4 : slo ≤ lo - hi ^ 3 / 6 - hi ^ 4 * (5 / 96))
    (h5 : hi - lo ^ 3 / 6 + hi ^ 4 * (5 / 96) ≤ shi) :
    slo ≤ Real.sin x ∧ Real.sin x ≤ shi := by
  have hx0 : 0 ≤ x := h0.trans h1
  have hb := Real.sin_bound (x := x) (by rw [abs_of_nonneg hx0]; exact h2.trans h3)
  rw [abs_of_nonneg hx0] at hb
  have hb1 := abs_le.mp hb
  have p3 : x ^ 3 ≤ hi ^ 3 := pow_le_pow_left₀ hx0 h2 3
  have p3' : lo ^ 3 ≤ x ^ 3 := pow_le_pow_left₀ h0 h1 3
  have p4 : x ^ 4 ≤ hi ^ 4 := pow_le_pow_left₀ hx0 h2 4
  constructor
  · linarith [hb1.1, hb1.2]
  · linarith [hb1.1, hb1.2]

lemma cos_leaf {x lo hi clo chi : ℝ} (h0 : 0 ≤ lo) (h1 : lo ≤ x) (h2 : x ≤ hi)
    (h3 : hi ≤ 1) (h4 : clo ≤ 1 - hi ^ 2 / 2 - hi ^ 4 * (5 / 96))
    (h5 : 1 - lo ^ 2 / 2 + hi ^ 4 * (5 / 96) ≤ chi) :
    clo ≤ Real.cos x ∧ Real.cos x ≤ chi := by
  have hx0 : 0 ≤ x := h0.trans h1
  have hb := Real.cos_bound (x := x) (by rw [abs_of_nonneg hx0]; exact h2.trans h3)
  rw [abs_of_nonneg hx0] at hb
  have hb1 := abs_le.mp hb
  have p2 : x ^ 2 ≤ hi ^ 2 := pow_le_pow_left₀ hx0 h2 2
  have p2' : lo ^ 2 ≤ x ^ 2 := pow_le_pow_left₀ h0 h1 2
  have p4 : x ^ 4 ≤ hi ^ 4 := pow_le_pow_left₀ hx0 h2 4
  constructor
  · linarith [hb1.1, hb1.2]
  · linarith [hb1.1, hb1.2]

lemma sin_427_14400 :
    (0.093013 : ℝ) ≤ Real.sin (427 * π / 14400) ∧
      Real.sin (427 * π / 14400) ≤ 0.093028 :=
  @sin_leaf _ 0.0931569 0.0931570 _ _ (by norm_num)
    (by linarith [Real.pi_gt_d6]) (by linarith [Real.pi_lt_d6]) (by norm_num)
    (by norm_num) (by norm_num)

lemma sin_427_7200 :
    (0.185170 : ℝ) ≤ Real.sin (427 * π / 7200) ∧
      Real.sin (427 * π / 7200) ≤ 0.185300 :=
  @sin_leaf _ 0.1863138 0.1863140 _ _ (by norm_num)
    (by linarith [Real.pi_gt_d6]) (by linarith [Real.pi_lt_d6]) (by norm_num)
    (by norm_num) (by norm_num)

lemma sin_103_720 :
    (0.432150 : ℝ) ≤ Real.sin (103 * π / 720) ∧
      Real.sin (103 * π / 720) ≤ 0.436440 :=
  @sin_leaf _ 0.4494221 0.4494224 _ _ (by norm_num)
    (by linarith [Real.pi_gt_d6]) (by linarith [Real.pi_lt_d6]) (by norm_num)
    (by norm_num) (by norm_num)

lemma sin_113_1200 :
    (0.291110 : ℝ) ≤ Real.sin (113 * π / 1200) ∧
      Real.sin (113 * π / 1200) ≤ 0.291920 :=
  @sin_leaf _ 0.2958332 0.2958334 _ _ (by norm_num)
    (by linarith [Real.pi_gt_d6]) (by linarith [Real.pi_lt_d6]) (by norm_num)
    (by norm_num) (by norm_num)

lemma sin_23_450 :
    (0.159840 : ℝ) ≤ Real.sin (23 * π / 450) ∧ Real.sin (23 * π / 450) ≤ 0.159920 :=
  @sin_leaf _ 0.1605702 0.1605704 _ _ (by norm_num)
    (by linarith [Real.pi_gt_d6]) (by linarith [Real.pi_lt_d6]) (by norm_num)
    (by norm_num) (by norm_num)

lemma sin_23_225 :
    (0.315060 : ℝ) ≤ Real.sin (23 * π / 225) ∧ Real.sin (23 * π / 225) ≤ 0.316180 :=
  @sin_leaf _ 0.3211405 0.3211407 _ _ (by norm_num)
    (by linarith [Real.pi_gt_d6]) (by linarith [Real.pi_lt_d6]) (by norm_num)
    (by norm_num) (by norm_num)

lemma cos_23_225 :
    (0.947880 : ℝ) ≤ Real.cos (23 * π / 225) ∧ Real.cos (23 * π / 225) ≤ 0.948990 :=
  @cos_leaf _ 0.3211405 0.3211407 _ _ (by norm_num)
    (by linarith [Real.pi_gt_d6]) (by linarith [Real.pi_lt_d6]) (by norm_num)
    (by norm_num) (by norm_num)

lemma cos_double_sin (y : ℝ) : Real.cos (2 * y) = 1 - 2 * Real.sin y ^ 2 := by
  rw [Real.cos_two_mul']
  have := Real.sin_sq_add_cos_sq y
  linarith

lemma cos_427_7200 :
    (0.982691 : ℝ) ≤ Real.cos (427 * π / 7200) ∧
      Real.cos (427 * π / 7200) ≤ 0.982698 := by
  have h8 := sin_427_14400
  rw [show (427 : ℝ) * π / 7200 = 2 * (427 * π / 14400) by ring, cos_double_sin]
  exact ⟨by nlinarith [h8.1, h8.2], by nlinarith [h8.1, h8.2]⟩

lemma sin_427_3600 :
    (0.363929 : ℝ) ≤ Real.sin (427 * π / 3600) ∧
      Real.sin (427 * π / 3600) ≤ 0.364188 := by
  have h4 := sin_427_7200
  have hc := cos_427_7200
  rw [show (427 : ℝ) * π / 3600 = 2 * (427 * π / 7200) by ring, Real.sin_two_mul]
  exact ⟨by nlinarith [h4.1, h4.2, hc.1, hc.2], by nlinarith [h4.1, h4.2, hc.1, hc.2]⟩

lemma cos_427_3600 :
    (0.931327 : ℝ) ≤ Real.cos (427 * π / 3600) ∧
      Real.cos (427 * π / 3600) ≤ 0.931425 := by
  have h4 := sin_427_7200
  rw [show (427 : ℝ) * π / 3600 = 2 * (427 * π / 7200) by ring, cos_double_sin]
  exact ⟨by nlinarith [h4.1, h4.2], by nlinarith [h4.1, h4.2]⟩

lemma sin_427_1800 :
    (0.677873 : ℝ) ≤ Real.sin (427 * π / 1800) ∧
      Real.sin (427 * π / 1800) ≤ 0.678430 := by
  have h2 := sin_427_3600
  have hc := cos_427_3600
  rw [show (427 : ℝ) * π / 1800 = 2 * (427 * π / 3600) by ring, Real.sin_two_mul]
  exact ⟨by nlinarith [h2.1, h2.2, hc.1, hc.2], by nlinarith [h2.1, h2.2, hc.1, hc.2]⟩

lemma cos_103_360 :
    (0.619040 : ℝ) ≤ Real.cos (103 * π / 360) ∧
      Real.cos (103 * π / 360) ≤ 0.626494 := by
  have h := sin_103_720
  rw [show (103 : ℝ) * π / 360 = 2 * (103 * π / 720) by ring, cos_double_sin]
  exact ⟨by nlinarith [h.1, h.2], by nlinarith [h.1, h.2]⟩

lemma cos_113_600 :
    (0.829565 : ℝ) ≤ Real.cos (113 * π / 600) ∧
      Real.cos (113 * π / 600) ≤ 0.830511 := by
  have h := sin_113_1200
  rw [show (113 : ℝ) * π / 600 = 2 * (113 * π / 1200) by ring, cos_double_sin]
  exact ⟨by nlinarith [h.1, h.2], by nlinarith [h.1, h.2]⟩

lemma sin_b1_8 :
    (0.094375 : ℝ) ≤ Real.sin (9635 / 12742 / 8) ∧
      Real.sin (9635 / 12742 / 8) ≤ 0.094384 :=
  @sin_leaf _ (9635 / 12742 / 8) (9635 / 12742 / 8) _ _ (by norm_num)
    le_rfl le_rfl (by norm_num) (by norm_num) (by norm_num)

lemma sin_b1_4 :
    (0.187840 : ℝ) ≤ Real.sin (9635 / 12742 / 4) ∧
      Real.sin (9635 / 12742 / 4) ≤ 0.187990 :=
  @sin_leaf _ (9635 / 12742 / 4) (9635 / 12742 / 4) _ _ (by norm_num)
    le_rfl le_rfl (by norm_num) (by norm_num) (by norm_num)

lemma cos_b1_4 :
    (0.982183 : ℝ) ≤ Real.cos (9635 / 12742 / 4) ∧
      Real.cos (9635 / 12742 / 4) ≤ 0.982187 := by
  have h := sin_b1_8
  rw [show (9635 : ℝ) / 12742 / 4 = 2 * (9635 / 12742 / 8) by ring, cos_double_sin]
  exact ⟨by nlinarith [h.1, h.2], by nlinarith [h.1, h.2]⟩

lemma sin_b1_2 :
    (0.368985 : ℝ) ≤ Real.sin (9635 / 12742 / 2) ∧
      Real.sin (9635 / 12742 / 2) ≤ 0.369290 := by
  have h4 := sin_b1_4
  have hc := cos_b1_4
  rw [show (9635 : ℝ) / 12742 / 2 = 2 * (9635 / 12742 / 4) by ring, Real.sin_two_mul]
  exact ⟨by nlinarith [h4.1, h4.2, hc.1, hc.2], by nlinarith [h4.1, h4.2, hc.1, hc.2]⟩

lemma cos_b1_2 :
    (0.929319 : ℝ) ≤ Real.cos (9635 / 12742 / 2) ∧
      Real.cos (9635 / 12742 / 2) ≤ 0.929433 := by
  have h := sin_b1_4
  rw [show (9635 : ℝ) / 12742 / 2 = 2 * (9635 / 12742 / 4) by ring, cos_double_sin]
  exact ⟨by nlinarith [h.1, h.2], by nlinarith [h.1, h.2]⟩

lemma sin_b1 :
    (0.685809 : ℝ) ≤ Real.sin (9635 / 12742) ∧ Real.sin (9635 / 12742) ≤ 0.686461 := by
  have h2 := sin_b1_2
  have hc := cos_b1_2
  rw [show (9635 : ℝ) / 12742 = 2 * (9635 / 12742 / 2) by ring, Real.sin_two_mul]
  exact ⟨by nlinarith [h2.1, h2.2, hc.1, hc.2], by nlinarith [h2.1, h2.2, hc.1, hc.2]⟩

lemma sin_b2_8 :
    (0.094863 : ℝ) ≤ Real.sin (9685 / 12742 / 8) ∧
      Real.sin (9685 / 12742 / 8) ≤ 0.094872 :=
  @sin_leaf _ (9685 / 12742 / 8) (9685 / 12742 / 8) _ _ (by norm_num)
    le_rfl le_rfl (by norm_num) (by norm_num) (by norm_num)

lemma sin_b2_4 :
    (0.188800 : ℝ) ≤ Real.sin (9685 / 12742 / 4) ∧
      Real.sin (9685 / 12742 / 4) ≤ 0.188950 :=
  @sin_leaf _ (9685 / 12742 / 4) (9685 / 12742 / 4) _ _ (by norm_num)
    le_rfl le_rfl (by norm_num) (by norm_num) (by norm_num)

lemma cos_b2_4 :
    (0.981998 : ℝ) ≤ Real.cos (9685 / 12742 / 4) ∧
      Real.cos (9685 / 12742 / 4) ≤ 0.982003 := by
  have h := sin_b2_8
  rw [show (9685 : ℝ) / 12742 / 4 = 2 * (9685 / 12742 / 8) by ring, cos_double_sin]
  exact ⟨by nlinarith [h.1, h.2], by nlinarith [h.1, h.2]⟩

lemma sin_b2_2 :
    (0.370802 : ℝ) ≤ Real.sin (9685 / 12742 / 2) ∧
      Real.sin (9685 / 12742 / 2) ≤ 0.371099 := by
  have h4 := sin_b2_4
  have hc := cos_b2_4
  rw [show (9685 : ℝ) / 12742 / 2 = 2 * (9685 / 12742 / 4) by ring, Real.sin_two_mul]
  exact ⟨by nlinarith [h4.1, h4.2, hc.1, hc.2], by nlinarith [h4.1, h4.2, hc.1, hc.2]⟩

lemma cos_b2_2 :
    (0.928595 : ℝ) ≤ Real.cos (9685 / 12742 / 2) ∧
      Real.cos (9685 / 12742 / 2) ≤ 0.928710 := by
  have h := sin_b2_4
  rw [show (9685 : ℝ) / 12742 / 2 = 2 * (9685 / 12742 / 4) by ring, cos_double_sin]
  exact ⟨by nlinarith [h.1, h.2], by nlinarith [h.1, h.2]⟩

lemma sin_b2 :
    (0.688610 : ℝ) ≤ Real.sin (9685 / 12742) ∧ Real.sin (9685 / 12742) ≤ 0.689288 := by
  have h2 := sin_b2_2
  have hc := cos_b2_2
  rw [show (9685 : ℝ) / 12742 = 2 * (9685 / 12742 / 2) by ring, Real.sin_two_mul]
  exact ⟨by nlinarith [h2.1, h2.2, hc.1, hc.2], by nlinarith [h2.1, h2.2, hc.1, hc.2]⟩

/-! ### C1: degenerate great-circle interpolation -/

lemma haversine_comm (a b : GeoCoordinates) :
    haversineDistance a b = haversineDistance b a := by
  simp only [haversineDistance]
  rw [show (a.lat - b.lat) * (π / 180) = -((b.lat - a.lat) * (π / 180)) by ring,
    show (a.lon - b.lon) * (π / 180) = -((b.lon - a.lon) * (π / 180)) by ring,
    neg_div, neg_div, Real.sin_neg, Real.sin_neg]
  ring_nf

lemma haversine_self (a : GeoCoordinates) : haversineDistance a a = 0 := by
  simp only [haversineDistance, sub_self, zero_mul, zero_div, Real.sin_zero,
    mul_zero, zero_add, add_zero, Real.sqrt_zero, sub_zero, Real.sqrt_one]
  rw [atan2_zero_of_pos one_pos]
  ring

lemma haversine_antipodal (lat lon : ℝ) :
    haversineDistance ⟨lat, lon⟩ ⟨-lat, lon + 180⟩ = π * 6371 := by
  simp only [haversineDistance]
  rw [show (-lat - lat) * (π / 180) / 2 = -(lat * (π / 180)) by ring,
    show (lon + 180 - lon) * (π / 180) / 2 = π / 2 by ring,
    show (-lat) * (π / 180) = -(lat * (π / 180)) by ring,
    Real.sin_neg, Real.cos_neg, Real.sin_pi_div_two]
  have hid := Real.sin_sq_add_cos_sq (lat * (π / 180))
  rw [show -Real.sin (lat * (π / 180)) * -Real.sin (lat * (π / 180)) +
      Real.cos (lat * (π / 180)) * Real.cos (lat * (π / 180)) * 1 * 1 = 1 by nlinarith]
  rw [Real.sqrt_one, sub_self, Real.sqrt_zero, atan2_one_zero]
  ring

lemma haversine_pole_zero (l₁ l₂ : ℝ) :
    haversineDistance ⟨90, l₁⟩ ⟨90, l₂⟩ = 0 := by
  simp only [haversineDistance, sub_self, zero_mul, zero_div, Real.sin_zero]
  rw [show (90 : ℝ) * (π / 180) = π / 2 by ring, Real.cos_pi_div_two]
  simp only [mul_zero, zero_mul, add_zero, zero_add, Real.sqrt_zero, sub_zero,
    Real.sqrt_one]
  rw [atan2_zero_of_pos one_pos]
  ring

/-- C1: the claim says `greatCirclePoints` short-circuits for equal endpoints
and returns `n+1` copies of `start` with no NaN; in fact the code has no such
short-circuit.  At the failing input `start = end = (0,0)`, `n = 1`, the
angular distance is `arccos 1 = 0` and every sample divides
`sin ((1-f)·0)` by `sin 0 = 0`, so every returned coordinate is NaN — in this
embedding the function returns `none` instead of `[start, start]`. -/
theorem greatCirclePoints_equal_endpoints_nan :
    greatCirclePoints ⟨0, 0⟩ ⟨0, 0⟩ 1 = none := by
  simp only [greatCirclePoints]
  norm_num [Real.arccos_one]

/-! ### C5: haversine distance properties -/

/-- C5 (counterexample): `haversineDistance` can be zero on two coordinates
that are not equal (not even within tolerance): both poles coordinates
`(90, 0)` and `(90, 90)` denote the North Pole and get distance 0 although
their longitudes differ by 90°. -/
theorem haversine_zero_at_distinct_coords :
    haversineDistance ⟨90, 0⟩ ⟨90, 90⟩ = 0 ∧
      (⟨90, 0⟩ : GeoCoordinates) ≠ ⟨90, 90⟩ := by
  refine ⟨haversine_pole_zero 0 90, ?_⟩
  intro h
  have := congrArg GeoCoordinates.lon h
  norm_num at this

/-- C5 (amended): `haversineDistance` is symmetric, vanishes on equal
coordinate pairs, returns exactly `π·6371` km on antipodal pairs, and its
zero set is the pairs denoting the same point of the sphere — in particular
it also vanishes on distinct coordinate pairs that both denote a pole, so
"zero only if the coordinate records are equal within tolerance" does not
hold. -/
theorem haversine_symm_zero_antipodal :
    (∀ a b : GeoCoordinates, haversineDistance a b = haversineDistance b a) ∧
    (∀ a : GeoCoordinates, haversineDistance a a = 0) ∧
    (∀ lat lon : ℝ, haversineDistance ⟨lat, lon⟩ ⟨-lat, lon + 180⟩ = π * 6371) ∧
    (∀ l₁ l₂ : ℝ, haversineDistance ⟨90, l₁⟩ ⟨90, l₂⟩ = 0) :=
  ⟨haversine_comm, haversine_self, haversine_antipodal, haversine_pole_zero⟩

/-! ### C4: cartesian round-trip -/

lemma latlon_roundtrip (lat lon radius : ℝ) (h1 : -90 ≤ lat) (h2 : lat ≤ 90)
    (h3 : -180 ≤ lon) (h4 : lon < 180) (h5 : 0 < radius) :
    cartesianToLatLon (latLonToCartesian lat lon radius).1
      (latLonToCartesian lat lon radius).2.1
      (latLonToCartesian lat lon radius).2.2 = ⟨lat, lon⟩ := by
  simp only [latLonToCartesian, cartesianToLatLon]
  have hπ := Real.pi_pos
  have hmp0 : (0 : ℝ) < MATH_PI := by norm_num [MATH_PI]
  have hmpπ : MATH_PI < π :=
    lt_of_le_of_lt (by norm_num [MATH_PI]) Real.pi_gt_d20
  set φ := lat * (MATH_PI / 180) with hφdef
  set θ := -lon * (MATH_PI / 180) with hθdef
  have hφ1 : -(π / 2) < φ := by
    rw [hφdef]
    nlinarith [mul_nonneg (by linarith : (0 : ℝ) ≤ lat + 90) hmp0.le]
  have hφ2 : φ < π / 2 := by
    rw [hφdef]
    nlinarith [mul_nonneg (by linarith : (0 : ℝ) ≤ 90 - lat) hmp0.le]
  have hθ1 : -π < θ := by
    rw [hθdef]
    nlinarith [mul_pos (by linarith : (0 : ℝ) < 180 - lon) hmp0]
  have hθ2 : θ ≤ π := by
    rw [hθdef]
    nlinarith [mul_nonneg (by linarith : (0 : ℝ) ≤ lon + 180) hmp0.le]
  have hcφ : 0 < Real.cos φ := Real.cos_pos_of_mem_Ioo ⟨hφ1, hφ2⟩
  have hφid := Real.sin_sq_add_cos_sq φ
  have hθid := Real.sin_sq_add_cos_sq θ
  have hr : radius * Real.cos φ * Real.cos θ * (radius * Real.cos φ * Real.cos θ) +
      radius * Real.sin φ * (radius * Real.sin φ) +
      radius * Real.cos φ * Real.sin θ * (radius * Real.cos φ * Real.sin θ) =
      radius ^ 2 := by
    linear_combination (radius ^ 2 * Real.cos φ ^ 2) * hθid + radius ^ 2 * hφid
  rw [hr, Real.sqrt_sq h5.le]
  have hk : 0 < radius * Real.cos φ := by positivity
  have hlon : atan2 (radius * Real.cos φ * Real.sin θ)
      (radius * Real.cos φ * Real.cos θ) = θ := by
    have h := atan2_mul_sin_cos hk hθ1 hθ2
    convert h using 2
  rw [hlon]
  rw [show radius * Real.sin φ / radius = Real.sin φ by field_simp]
  rw [Real.arcsin_sin hφ1.le hφ2.le]
  rw [GeoCoordinates.mk.injEq]
  constructor
  · rw [hφdef]
    field_simp
  · rw [hθdef]
    field_simp

/-- C4: for every valid coordinate (`-90 ≤ lat ≤ 90`, `-180 ≤ lon < 180`) and
every radius `r > 0`, the round trip
`cartesianToLatLon (latLonToCartesian lat lon r)` returns exactly `(lat, lon)`
— in particular within the claimed `1e-9` degrees — including at the poles:
since `Math.PI` (embedded exactly as the double `MATH_PI`) is strictly below
the real `π`, the polar angle `90 * (MATH_PI / 180)` is strictly inside
`(-π/2, π/2)`, its cosine is positive, and the longitude direction is never
lost. -/
theorem latlon_roundtrip_exact (lat lon radius : ℝ) (h1 : -90 ≤ lat)
    (h2 : lat ≤ 90) (h3 : -180 ≤ lon) (h4 : lon < 180) (h5 : 0 < radius) :
    cartesianToLatLon (latLonToCartesian lat lon radius).1
      (latLonToCartesian lat lon radius).2.1
      (latLonToCartesian lat lon radius).2.2 = ⟨lat, lon⟩ :=
  latlon_roundtrip lat lon radius h1 h2 h3 h4 h5

/-- Witness for C4 at the North Pole input `lat = 90`, `lon = 90`, `r = 1`. -/
theorem latlon_roundtrip_exact_witness :
    (-90 : ℝ) ≤ 90 ∧ (90 : ℝ) ≤ 90 ∧ (-180 : ℝ) ≤ 90 ∧ (90 : ℝ) < 180 ∧
      (0 : ℝ) < 1 ∧
      cartesianToLatLon (latLonToCartesian 90 90 1).1
        (latLonToCartesian 90 90 1).2.1
        (latLonToCartesian 90 90 1).2.2 = ⟨90, 90⟩ :=
  ⟨by norm_num, by norm_num, by norm_num, by norm_num, by norm_num,
    latlon_roundtrip_exact 90 90 1 (by norm_num) (by norm_num) (by norm_num)
      (by norm_num) (by norm_num)⟩

/-! ### C6 and C10: the subsolar point -/

lemma cos_pi_730_bounds : (0.99999 : ℝ) ≤ Real.cos (π / 730) ∧ Real.cos (π / 730) ≤ 1 :=
  ⟨(@cos_leaf _ 0.0043035 0.0043036 0.99999 1
      (by norm_num) (by linarith [Real.pi_gt_d6]) (by linarith [Real.pi_lt_d6])
      (by norm_num) (by norm_num) (by norm_num)).1,
    Real.cos_le_one _⟩

lemma subsolar_lat_formula (d h : ℝ) :
    (calculateSubsolarPoint d h).lat = 23.5 * Real.sin (2 * π / 365 * (d - 81)) := by
  have hπ : π ≠ 0 := Real.pi_ne_zero
  simp only [calculateSubsolarPoint, AXIAL_TILT]
  field_simp
  ring

/-- C6: the subsolar latitude is exactly `23.5·sin(2π/365·(day-81))` degrees,
hence within 0.5° of +23.5 at day 172, within 0.5° of −23.5 at day 355 and
exactly 0 at day 81; and the longitude is `−15·(h−12)`, i.e. 0 at hour 12 and
moving west by 15° per hour. -/
theorem subsolar_declination_and_extrema :
    (∀ d h : ℝ, (calculateSubsolarPoint d h).lat =
        23.5 * Real.sin (2 * π / 365 * (d - 81))) ∧
    (∀ h : ℝ, |(calculateSubsolarPoint 172 h).lat - 23.5| < 0.5) ∧
    (∀ h : ℝ, |(calculateSubsolarPoint 355 h).lat + 23.5| < 0.5) ∧
    (∀ h : ℝ, (calculateSubsolarPoint 81 h).lat = 0) ∧
    (∀ d h : ℝ, (calculateSubsolarPoint d h).lon = -15 * (h - 12)) := by
  have hc := cos_pi_730_bounds
  refine ⟨subsolar_lat_formula, ?_, ?_, ?_, fun d h => rfl⟩
  · intro h
    rw [subsolar_lat_formula]
    rw [show 2 * π / 365 * ((172 : ℝ) - 81) = π / 2 - π / 730 by ring,
      Real.sin_pi_div_two_sub]
    rw [abs_of_nonpos (by nlinarith [hc.2])]
    nlinarith [hc.1]
  · intro h
    rw [subsolar_lat_formula]
    rw [show 2 * π / 365 * ((355 : ℝ) - 81) = π + (π / 2 - -(π / 730)) by ring]
    rw [Real.sin_add, Real.sin_pi, Real.cos_pi, Real.sin_pi_div_two_sub, Real.cos_neg]
    rw [abs_of_nonneg (by nlinarith [hc.2])]
    nlinarith [hc.1]
  · intro h
    rw [subsolar_lat_formula]
    norm_num

/-- C10: for hour-of-day `h ∈ [0, 24)` (which covers every value of
`getUTCHours() + getUTCMinutes()/60`), the subsolar longitude is exactly
`-15·(h-12)`, so it always lies in `(-180, 180]`, is exactly `+180` at UTC
midnight (`h = 0`), and the function applies no further normalization. -/
theorem subsolar_longitude_range (d h : ℝ) (h0 : 0 ≤ h) (h1 : h < 24) :
    (calculateSubsolarPoint d h).lon = -15 * (h - 12) ∧
      -180 < (calculateSubsolarPoint d h).lon ∧
      (calculateSubsolarPoint d h).lon ≤ 180 ∧
      (h = 0 → (calculateSubsolarPoint d h).lon = 180) := by
  have hl : (calculateSubsolarPoint d h).lon = -15 * (h - 12) := rfl
  refine ⟨hl, ?_, ?_, ?_⟩
  · rw [hl]
    linarith
  · rw [hl]
    linarith
  · intro hz
    rw [hl, hz]
    norm_num

/-- Witness for C10 at day 1, hour 0 (UTC midnight: longitude exactly 180). -/
theorem subsolar_longitude_range_witness :
    (0 : ℝ) ≤ 0 ∧ (0 : ℝ) < 24 ∧
      ((calculateSubsolarPoint 1 0).lon = -15 * (0 - 12) ∧
        -180 < (calculateSubsolarPoint 1 0).lon ∧
        (calculateSubsolarPoint 1 0).lon ≤ 180 ∧
        ((0 : ℝ) = 0 → (calculateSubsolarPoint 1 0).lon = 180)) :=
  ⟨le_refl 0, by norm_num, subsolar_longitude_range 1 0 (le_refl 0) (by norm_num)⟩

/-! ### C7 and C3: Kepler machinery -/

lemma keplerIter_succ (e M : ℝ) (n : ℕ) :
    keplerIter e M (n + 1) = M + e * Real.sin (keplerIter e M n) := rfl

lemma keplerIter_zero_M (e : ℝ) : ∀ n, keplerIter e 0 n = 0
  | 0 => rfl
  | n + 1 => by
    rw [keplerIter_succ, keplerIter_zero_M e n, Real.sin_zero, mul_zero, add_zero]

lemma keplerIter_dist (e M : ℝ) (he : 0 ≤ e) (n : ℕ) :
    M - e ≤ keplerIter e M (n + 1) ∧ keplerIter e M (n + 1) ≤ M + e := by
  rw [keplerIter_succ]
  have h1 := Real.neg_one_le_sin (keplerIter e M n)
  have h2 := Real.sin_le_one (keplerIter e M n)
  constructor <;> nlinarith

lemma kepler_mem_of (e M : ℝ) (he : 0 ≤ e) (h0 : 0 < M) (h1 : M + e < π) :
    ∀ n, M ≤ keplerIter e M n ∧ keplerIter e M n ≤ M + e
  | 0 => ⟨le_refl M, by show M ≤ M + e; linarith⟩
  | n + 1 => by
    obtain ⟨ha, hb⟩ := kepler_mem_of e M he h0 h1 n
    rw [keplerIter_succ]
    have hs0 : 0 ≤ Real.sin (keplerIter e M n) :=
      Real.sin_nonneg_of_nonneg_of_le_pi (by linarith) (by linarith)
    have hs1 := Real.sin_le_one (keplerIter e M n)
    constructor <;> nlinarith

lemma cos_near_one {t b : ℝ} (hb : |t| ≤ b) (hb1 : b ≤ 1) :
    1 - b ^ 2 / 2 - b ^ 4 * (5 / 96) ≤ Real.cos t := by
  have h := Real.cos_bound (le_trans hb hb1)
  have h2 := abs_le.mp h
  have hb0 : 0 ≤ b := le_trans (abs_nonneg t) hb
  have ht2 : t ^ 2 ≤ b ^ 2 := by nlinarith [neg_abs_le t, le_abs_self t, abs_nonneg t]
  have ht4 : |t| ^ 4 ≤ b ^ 4 := pow_le_pow_left₀ (abs_nonneg t) hb 4
  linarith [h2.1]

lemma sin_shift_half (u : ℝ) : Real.sin u = Real.cos (u - π / 2) := by
  conv_lhs => rw [show u = π / 2 + (u - π / 2) by ring]
  rw [Real.sin_add, Real.sin_pi_div_two, Real.cos_pi_div_two]
  ring

lemma cos_shift_half (u : ℝ) : Real.cos u = -Real.sin (u - π / 2) := by
  conv_lhs => rw [show u = π / 2 + (u - π / 2) by ring]
  rw [Real.cos_add, Real.sin_pi_div_two, Real.cos_pi_div_two]
  ring

lemma cos_two_atan2 {y x : ℝ} (hx : x ≠ 0 ∨ y ≠ 0) :
    Real.cos (2 * atan2 y x) = (x ^ 2 - y ^ 2) / (x ^ 2 + y ^ 2) := by
  have hpos : 0 < x ^ 2 + y ^ 2 := by
    rcases hx with h | h
    · positivity
    · positivity
  rw [Real.cos_two_mul, cos_atan2 hx, div_pow, Real.sq_sqrt hpos.le]
  field_simp
  ring

lemma earthSunTrueAnomaly_eq (d : ℝ) :
    earthSunTrueAnomaly d = keplerTrueAnomaly (25 / 1496) d := by
  simp only [earthSunTrueAnomaly, keplerTrueAnomaly]
  norm_num

lemma calculateOrbitalAngle_eq (d : ℝ) :
    calculateOrbitalAngle d = keplerTrueAnomaly (167 / 10000) d := by
  simp only [calculateOrbitalAngle, keplerTrueAnomaly]
  norm_num

lemma calculateEarthSunDistance_eq (d : ℝ) :
    calculateEarthSunDistance d =
      149.6 * (1 - 25 / 1496 * (25 / 1496)) /
        (1 + 25 / 1496 * Real.cos (earthSunTrueAnomaly d)) := by
  simp only [calculateEarthSunDistance]
  norm_num

lemma keplerTrueAnomaly_day3 (e : ℝ) (he : e < 1) : keplerTrueAnomaly e 3 = 0 := by
  simp only [keplerTrueAnomaly]
  rw [show ((3 : ℝ) - 3) / 365.25 * (2 * π) = 0 by norm_num, keplerIter_zero_M]
  rw [show (0 : ℝ) / 2 = 0 by norm_num, Real.sin_zero, Real.cos_zero, mul_zero,
    mul_one]
  rw [atan2_zero_of_pos (Real.sqrt_pos.mpr (by linarith))]
  ring

lemma earthSunTrueAnomaly_3 : earthSunTrueAnomaly 3 = 0 := by
  rw [earthSunTrueAnomaly_eq, keplerTrueAnomaly_day3]
  norm_num

lemma earthSun_day3 : calculateEarthSunDistance 3 = 147.1 := by
  rw [calculateEarthSunDistance_eq, earthSunTrueAnomaly_3, Real.cos_zero]
  norm_num

lemma aphelion_cos_bound : Real.cos (earthSunTrueAnomaly 186) ≤ -0.9995 := by
  rw [earthSunTrueAnomaly_eq]
  simp only [keplerTrueAnomaly]
  rw [show ((186 : ℝ) - 3) / 365.25 * (2 * π) = 488 * π / 487 by
    rw [show ((186 : ℝ) - 3) / 365.25 = 244 / 487 by norm_num]; ring]
  set E := keplerIter (25 / 1496) (488 * π / 487) 10 with hE
  have hEd : 488 * π / 487 - 25 / 1496 ≤ E ∧ E ≤ 488 * π / 487 + 25 / 1496 := by
    rw [hE]
    exact keplerIter_dist _ _ (by norm_num) 9
  have hπl := Real.pi_gt_d6
  have hπu := Real.pi_lt_d6
  have hEπ1 : -0.010262 ≤ E - π := by nlinarith [hEd.1]
  have hEπ2 : E - π ≤ 0.023164 := by nlinarith [hEd.2]
  have hu : |E / 2 - π / 2| ≤ 0.0116 := by
    rw [abs_le]
    constructor <;> [linarith; linarith]
  have hs_lo : (0.99993 : ℝ) ≤ Real.sin (E / 2) := by
    rw [sin_shift_half]
    have h1 := cos_near_one hu (by norm_num)
    have h2 : (0.99993 : ℝ) ≤ 1 - 0.0116 ^ 2 / 2 - 0.0116 ^ 4 * (5 / 96) := by
      norm_num
    linarith
  have hc_sq : Real.cos (E / 2) ^ 2 ≤ 0.000135 := by
    rw [cos_shift_half]
    have h1 := abs_sin_le_abs (E / 2 - π / 2)
    nlinarith [abs_nonneg (Real.sin (E / 2 - π / 2)),
      le_abs_self (Real.sin (E / 2 - π / 2)),
      neg_abs_le (Real.sin (E / 2 - π / 2)), abs_nonneg (E / 2 - π / 2)]
  have hy : 0 < Real.sqrt (1 + 25 / 1496) * Real.sin (E / 2) :=
    mul_pos (Real.sqrt_pos.mpr (by norm_num)) (by linarith)
  rw [cos_two_atan2 (Or.inr hy.ne')]
  rw [mul_pow, mul_pow, Real.sq_sqrt (by norm_num : (0 : ℝ) ≤ 1 + 25 / 1496),
    Real.sq_sqrt (by norm_num : (0 : ℝ) ≤ 1 - 25 / 1496)]
  have hs2 : (0.99986 : ℝ) ≤ Real.sin (E / 2) ^ 2 := by nlinarith [hs_lo]
  have hs2' : Real.sin (E / 2) ^ 2 ≤ 1 := by
    nlinarith [Real.sin_le_one (E / 2), Real.neg_one_le_sin (E / 2)]
  have hc2 : 0 ≤ Real.cos (E / 2) ^ 2 := sq_nonneg _
  have hden : 0 < (1 - 25 / 1496) * Real.cos (E / 2) ^ 2 +
      (1 + 25 / 1496) * Real.sin (E / 2) ^ 2 := by nlinarith
  rw [div_le_iff₀ hden]
  nlinarith [hc_sq, hs2]

lemma earthSun_day186 : |calculateEarthSunDistance 186 - 152.1| < 0.1 := by
  rw [calculateEarthSunDistance_eq]
  have h1 := aphelion_cos_bound
  have h2 := Real.neg_one_le_cos (earthSunTrueAnomaly 186)
  set cv := Real.cos (earthSunTrueAnomaly 186) with hcv
  have hden : 0 < 1 + 25 / 1496 * cv := by nlinarith
  rw [abs_lt]
  constructor
  · have key : (152 : ℝ) < 149.6 * (1 - 25 / 1496 * (25 / 1496)) / (1 + 25 / 1496 * cv) := by
      rw [lt_div_iff₀ hden]
      nlinarith
    linarith
  · have key : 149.6 * (1 - 25 / 1496 * (25 / 1496)) / (1 + 25 / 1496 * cv) ≤ 152.1 := by
      rw [div_le_iff₀ hden]
      nlinarith
    linarith

/-- C7: calculateEarthSunDistance returns the perihelion distance 147.1
million km at day 3 (exactly, since the mean anomaly is 0 there) and the
aphelion distance 152.1 million km at day 186 within 0.1, the ten
fixed-point iterations being amply sufficient at this eccentricity. -/
theorem earthSunDistance_perihelion_aphelion :
    |calculateEarthSunDistance 3 - 147.1| < 0.1 ∧
      |calculateEarthSunDistance 186 - 152.1| < 0.1 := by
  constructor
  · rw [earthSun_day3]
    norm_num
  · exact earthSun_day186

lemma kepler94_M : ((94 : ℝ) - 3) / 365.25 * (2 * π) = 728 * π / 1461 := by
  rw [show ((94 : ℝ) - 3) / 365.25 = 364 / 1461 by norm_num]
  ring

lemma kepler94_mem (e : ℝ) (he : 0 ≤ e) (he2 : e ≤ 25 / 1496) (n : ℕ) :
    728 * π / 1461 ≤ keplerIter e (728 * π / 1461) n ∧
      keplerIter e (728 * π / 1461) n ≤ 728 * π / 1461 + e := by
  have hπl := Real.pi_gt_d6
  have hπu := Real.pi_lt_d6
  exact kepler_mem_of e _ he (by nlinarith) (by nlinarith) n

lemma kepler94_sin_lb (e : ℝ) (he : 0 ≤ e) (he2 : e ≤ 25 / 1496) (n : ℕ) :
    (0.999935 : ℝ) ≤ Real.sin (keplerIter e (728 * π / 1461) n) := by
  have hπl := Real.pi_gt_d6
  have hπu := Real.pi_lt_d6
  obtain ⟨ha, hb⟩ := kepler94_mem e he he2 n
  rw [sin_shift_half]
  have hu : |keplerIter e (728 * π / 1461) n - π / 2| ≤ 0.011336 := by
    rw [abs_le]
    constructor <;> nlinarith
  have h1 := cos_near_one hu (by norm_num)
  have h2 : (0.999935 : ℝ) ≤ 1 - 0.011336 ^ 2 / 2 - 0.011336 ^ 4 * (5 / 96) := by
    norm_num
  linarith

/-- C3 (counterexample): at dayOfYear 94 the true anomaly returned by
`calculateOrbitalAngle` is NOT the value computed internally by
`calculateEarthSunDistance`: the former uses the hard-coded eccentricity
0.0167, the latter (152.1-147.1)/(152.1+147.1) ≈ 0.0167112, and near mean
anomaly π/2 the resulting eccentric anomalies and half-angle factors are
strictly ordered, so the two angles differ. -/
theorem orbitalAngle_ne_earthSunTrueAnomaly_94 :
    calculateOrbitalAngle 94 ≠ earthSunTrueAnomaly 94 := by
  rw [calculateOrbitalAngle_eq, earthSunTrueAnomaly_eq]
  simp only [keplerTrueAnomaly]
  rw [kepler94_M]
  have hπl := Real.pi_gt_d6
  have hπu := Real.pi_lt_d6
  set E₁ := keplerIter (167 / 10000) (728 * π / 1461) 10 with hE₁
  set E₂ := keplerIter (25 / 1496) (728 * π / 1461) 10 with hE₂
  have mem₁ := kepler94_mem (167 / 10000) (by norm_num) (by norm_num) 10
  have mem₂ := kepler94_mem (25 / 1496) (by norm_num) (by norm_num) 10
  rw [← hE₁] at mem₁
  rw [← hE₂] at mem₂
  have hlow : 728 * π / 1461 + 25 / 1496 * 0.999935 ≤ E₂ := by
    have hs := kepler94_sin_lb (25 / 1496) (by norm_num) (by norm_num) 9
    have : E₂ = 728 * π / 1461 +
        25 / 1496 * Real.sin (keplerIter (25 / 1496) (728 * π / 1461) 9) := by
      rw [hE₂]
      exact keplerIter_succ _ _ 9
    rw [this]
    nlinarith
  have hgap : E₁ < E₂ := by nlinarith [mem₁.2]
  have h10 : 0 < E₁ := by nlinarith [mem₁.1]
  have h1π : E₂ < π := by nlinarith [mem₂.2]
  have hhalf₁ : 0 < E₁ / 2 := by linarith
  have hhalf₂ : E₂ / 2 < π / 2 := by linarith
  have hcos₁ : 0 < Real.cos (E₁ / 2) :=
    Real.cos_pos_of_mem_Ioo ⟨by nlinarith [mem₁.1], by nlinarith [mem₁.2]⟩
  have hcos₂ : 0 < Real.cos (E₂ / 2) :=
    Real.cos_pos_of_mem_Ioo ⟨by nlinarith [mem₂.1], by nlinarith [mem₂.2]⟩
  have hx₁ : 0 < Real.sqrt (1 - 167 / 10000) * Real.cos (E₁ / 2) :=
    mul_pos (Real.sqrt_pos.mpr (by norm_num)) hcos₁
  have hx₂ : 0 < Real.sqrt (1 - 25 / 1496) * Real.cos (E₂ / 2) :=
    mul_pos (Real.sqrt_pos.mpr (by norm_num)) hcos₂
  rw [atan2_of_pos hx₁, atan2_of_pos hx₂]
  intro hEq
  have harc : Real.arctan (Real.sqrt (1 + 167 / 10000) * Real.sin (E₁ / 2) /
      (Real.sqrt (1 - 167 / 10000) * Real.cos (E₁ / 2))) =
      Real.arctan (Real.sqrt (1 + 25 / 1496) * Real.sin (E₂ / 2) /
      (Real.sqrt (1 - 25 / 1496) * Real.cos (E₂ / 2))) :=
    mul_left_cancel₀ two_ne_zero hEq
  have hq := Real.arctan_injective harc
  have hq₁ : Real.sqrt (1 + 167 / 10000) * Real.sin (E₁ / 2) /
      (Real.sqrt (1 - 167 / 10000) * Real.cos (E₁ / 2)) =
      Real.sqrt (1 + 167 / 10000) / Real.sqrt (1 - 167 / 10000) *
        Real.tan (E₁ / 2) := by
    rw [Real.tan_eq_sin_div_cos]
    field_simp
  have hq₂ : Real.sqrt (1 + 25 / 1496) * Real.sin (E₂ / 2) /
      (Real.sqrt (1 - 25 / 1496) * Real.cos (E₂ / 2)) =
      Real.sqrt (1 + 25 / 1496) / Real.sqrt (1 - 25 / 1496) *
        Real.tan (E₂ / 2) := by
    rw [Real.tan_eq_sin_div_cos]
    field_simp
  rw [hq₁, hq₂] at hq
  have htan_pos : 0 < Real.tan (E₁ / 2) :=
    Real.tan_pos_of_pos_of_lt_pi_div_two hhalf₁ (by nlinarith [mem₁.2])
  have htan_lt : Real.tan (E₁ / 2) < Real.tan (E₂ / 2) :=
    Real.tan_lt_tan_of_nonneg_of_lt_pi_div_two hhalf₁.le hhalf₂ (by linarith)
  have hg₁pos : 0 < Real.sqrt (1 + 167 / 10000) / Real.sqrt (1 - 167 / 10000) :=
    div_pos (Real.sqrt_pos.mpr (by norm_num)) (Real.sqrt_pos.mpr (by norm_num))
  have hglt : Real.sqrt (1 + 167 / 10000) / Real.sqrt (1 - 167 / 10000) <
      Real.sqrt (1 + 25 / 1496) / Real.sqrt (1 - 25 / 1496) := by
    have ha : Real.sqrt (1 + 167 / 10000) < Real.sqrt (1 + 25 / 1496) :=
      Real.sqrt_lt_sqrt (by norm_num) (by norm_num)
    have hb : Real.sqrt (1 - 25 / 1496) < Real.sqrt (1 - 167 / 10000) :=
      Real.sqrt_lt_sqrt (by norm_num) (by norm_num)
    have hb0 : 0 < Real.sqrt (1 - 25 / 1496) := Real.sqrt_pos.mpr (by norm_num)
    have ha0 : 0 < Real.sqrt (1 + 167 / 10000) := Real.sqrt_pos.mpr (by norm_num)
    rw [div_lt_div_iff₀ (by linarith) hb0]
    exact mul_lt_mul'' ha hb ha0.le hb0.le
  have : Real.sqrt (1 + 167 / 10000) / Real.sqrt (1 - 167 / 10000) *
      Real.tan (E₁ / 2) <
      Real.sqrt (1 + 25 / 1496) / Real.sqrt (1 - 25 / 1496) *
        Real.tan (E₂ / 2) :=
    mul_lt_mul'' hglt htan_lt hg₁pos.le htan_pos.le
  exact absurd hq this.ne

/-- C3 (amended): the two functions implement the same true-anomaly formula
(ten Kepler fixed-point iterations from perihelion day 3 and the half-angle
conversion) but instantiate it with different eccentricity constants — the
hard-coded 0.0167 versus the derived (152.1−147.1)/(152.1+147.1) — so they
agree only where the sine corrections vanish, e.g. at dayOfYear 3 (both
return 0), and differ in general (e.g. at dayOfYear 94). -/
theorem orbitalAngle_shares_formula_agrees_day3 :
    (∀ d : ℝ, calculateOrbitalAngle d = keplerTrueAnomaly 0.0167 d) ∧
    (∀ d : ℝ, earthSunTrueAnomaly d =
      keplerTrueAnomaly ((152.1 - 147.1) / (152.1 + 147.1)) d) ∧
    (0.0167 : ℝ) ≠ (152.1 - 147.1) / (152.1 + 147.1) ∧
    calculateOrbitalAngle 3 = earthSunTrueAnomaly 3 := by
  refine ⟨fun d => rfl, fun d => rfl, by norm_num, ?_⟩
  rw [calculateOrbitalAngle_eq, earthSunTrueAnomaly_3, keplerTrueAnomaly_day3]
  norm_num

/-! ### C8: the advanceTime state transition -/

lemma wrapHourDown_of_lt {h : ℝ} (d : ℤ) (hh : h < 24) : wrapHourDown h d = (h, d) := by
  rw [wrapHourDown]
  simp [not_le.mpr hh]

lemma wrapHourDown_of_ge {h : ℝ} (d : ℤ) (hh : 24 ≤ h) :
    wrapHourDown h d = wrapHourDown (h - 24) (d + 1) := by
  rw [wrapHourDown]
  simp [hh]

lemma wrapHourUp_of_nonneg {h : ℝ} (d : ℤ) (hh : 0 ≤ h) : wrapHourUp h d = (h, d) := by
  rw [wrapHourUp]
  simp [not_lt.mpr hh]

lemma wrapHourUp_of_neg {h : ℝ} (d : ℤ) (hh : h < 0) :
    wrapHourUp h d = wrapHourUp (h + 24) (d - 1) := by
  rw [wrapHourUp]
  simp [hh]

lemma wrapDayDown_of_le {d : ℤ} (hd : d ≤ 365) : wrapDayDown d = d := by
  rw [wrapDayDown]
  simp [not_lt.mpr hd]

lemma wrapDayUp_of_ge {d : ℤ} (hd : 1 ≤ d) : wrapDayUp d = d := by
  rw [wrapDayUp]
  simp [not_lt.mpr hd]

lemma wrapHourDown_spec (h : ℝ) (d : ℤ) (h0 : 0 ≤ h) :
    0 ≤ (wrapHourDown h d).1 ∧ (wrapHourDown h d).1 < 24 ∧
      (wrapHourDown h d).1 + 24 * ((wrapHourDown h d).2 : ℝ) = h + 24 * (d : ℝ) := by
  by_cases hc : 24 ≤ h
  · rw [wrapHourDown_of_ge d hc]
    obtain ⟨a, b, c⟩ := wrapHourDown_spec (h - 24) (d + 1) (by linarith)
    refine ⟨a, b, ?_⟩
    push_cast at c ⊢
    linarith
  · rw [wrapHourDown_of_lt d (lt_of_not_le hc)]
    exact ⟨h0, lt_of_not_le hc, rfl⟩
termination_by (⌈h⌉ - 23).toNat
decreasing_by
  have h24 : (24 : ℤ) ≤ ⌈h⌉ := by
    rw [Int.le_ceil_iff]
    push_cast
    linarith
  have hcc : ⌈h - 24⌉ = ⌈h⌉ - 24 := by
    exact_mod_cast Int.ceil_sub_int h (24 : ℤ)
  omega

lemma wrapHourUp_spec (h : ℝ) (d : ℤ) (h24 : h < 24) :
    0 ≤ (wrapHourUp h d).1 ∧ (wrapHourUp h d).1 < 24 ∧
      (wrapHourUp h d).1 + 24 * ((wrapHourUp h d).2 : ℝ) = h + 24 * (d : ℝ) := by
  by_cases hc : h < 0
  · rw [wrapHourUp_of_neg d hc]
    obtain ⟨a, b, c⟩ := wrapHourUp_spec (h + 24) (d - 1) (by linarith)
    refine ⟨a, b, ?_⟩
    push_cast at c ⊢
    linarith
  · rw [wrapHourUp_of_nonneg d (not_lt.mp hc)]
    exact ⟨not_lt.mp hc, h24, rfl⟩
termination_by (1 - ⌈h⌉).toNat
decreasing_by
  have h0 : ⌈h⌉ ≤ 0 := Int.ceil_le.mpr (by simpa using le_of_lt ‹h < 0›)
  have hcc : ⌈h + 24⌉ = ⌈h⌉ + 24 := by
    exact_mod_cast Int.ceil_add_int h (24 : ℤ)
  omega

lemma wrapDayDown_spec (d : ℤ) :
    wrapDayDown d ≤ 365 ∧ (1 ≤ d → 1 ≤ wrapDayDown d) ∧
      ∃ k : ℤ, wrapDayDown d = d - 365 * k := by
  by_cases hc : 365 < d
  · rw [wrapDayDown]
    simp only [hc, if_pos]
    obtain ⟨a, b, k, hk⟩ := wrapDayDown_spec (d - 365)
    exact ⟨a, fun _ => b (by omega), k + 1, by omega⟩
  · rw [wrapDayDown_of_le (not_lt.mp hc)]
    exact ⟨not_lt.mp hc, fun hh => hh, 0, by ring⟩
termination_by (d - 365).toNat
decreasing_by omega

lemma wrapDayUp_spec (d : ℤ) (hd : d ≤ 365) :
    1 ≤ wrapDayUp d ∧ wrapDayUp d ≤ 365 ∧ ∃ k : ℤ, wrapDayUp d = d + 365 * k := by
  by_cases hc : d < 1
  · rw [wrapDayUp]
    simp only [hc, if_pos]
    obtain ⟨a, b, k, hk⟩ := wrapDayUp_spec (d + 365) (by omega)
    exact ⟨a, b, k + 1, by omega⟩
  · rw [wrapDayUp_of_ge (not_lt.mp hc)]
    exact ⟨not_lt.mp hc, hd, 0, by ring⟩
termination_by (1 - d).toNat
decreasing_by omega

/-- C8: for every state with hourOfDay in [0,24) and dayOfYear in [1,365] and
every (finite) real delta, `advanceTime` returns an hourOfDay again in [0,24)
and a dayOfYear again in [1,365]; the result equals the old time advanced by
`deltaSeconds·animationSpeed` hours, with hour overflow/underflow carried
into the day and the day wrapped circularly (the combined hour count is
preserved modulo 8760 = 24·365); and a zero delta leaves the state
unchanged. -/
theorem advanceTime_range_carry_identity (speed dt h : ℝ) (d : ℤ) (h0 : 0 ≤ h)
    (h24 : h < 24) (hd1 : 1 ≤ d) (hd365 : d ≤ 365) :
    (0 ≤ (advanceTime speed dt h d).1 ∧ (advanceTime speed dt h d).1 < 24 ∧
      1 ≤ (advanceTime speed dt h d).2 ∧ (advanceTime speed dt h d).2 ≤ 365) ∧
    (∃ k : ℤ, (advanceTime speed dt h d).1 + 24 * ((advanceTime speed dt h d).2 : ℝ) =
      h + dt * speed + 24 * (d : ℝ) + 8760 * (k : ℝ)) ∧
    (dt = 0 → advanceTime speed dt h d = (h, d)) := by
  simp only [advanceTime]
  set nh := h + dt * speed with hnh
  have hq : 0 ≤ (wrapHourUp (wrapHourDown nh d).1 (wrapHourDown nh d).2).1 ∧
      (wrapHourUp (wrapHourDown nh d).1 (wrapHourDown nh d).2).1 < 24 ∧
      (wrapHourUp (wrapHourDown nh d).1 (wrapHourDown nh d).2).1 +
        24 * (((wrapHourUp (wrapHourDown nh d).1 (wrapHourDown nh d).2).2 : ℤ) : ℝ) =
        nh + 24 * (d : ℝ) := by
    by_cases hc : 0 ≤ nh
    · obtain ⟨a, b, c⟩ := wrapHourDown_spec nh d hc
      rw [wrapHourUp_of_nonneg _ a]
      exact ⟨a, b, c⟩
    · rw [wrapHourDown_of_lt d (by linarith [not_le.mp hc])]
      exact wrapHourUp_spec nh d (by linarith [not_le.mp hc])
  obtain ⟨hdd1, hdd2, k₁, hk₁⟩ :=
    wrapDayDown_spec (wrapHourUp (wrapHourDown nh d).1 (wrapHourDown nh d).2).2
  obtain ⟨hdu1, hdu2, k₂, hk₂⟩ :=
    wrapDayUp_spec (wrapDayDown
      (wrapHourUp (wrapHourDown nh d).1 (wrapHourDown nh d).2).2) hdd1
  refine ⟨⟨hq.1, hq.2.1, hdu1, hdu2⟩, ⟨k₂ - k₁, ?_⟩, ?_⟩
  · rw [hk₂, hk₁]
    push_cast
    push_cast at hq
    linarith [hq.2.2]
  · intro hz
    have hnh0 : nh = h := by
      rw [hnh, hz]
      ring
    rw [hnh0, wrapHourDown_of_lt d h24, wrapHourUp_of_nonneg d h0,
      wrapDayDown_of_le hd365, wrapDayUp_of_ge hd1]

/-- Witness for C8 at speed 1, delta 0, hour 0, day 1. -/
theorem advanceTime_range_carry_identity_witness :
    (0 : ℝ) ≤ 0 ∧ (0 : ℝ) < 24 ∧ (1 : ℤ) ≤ 1 ∧ (1 : ℤ) ≤ 365 ∧
      ((0 ≤ (advanceTime 1 0 0 1).1 ∧ (advanceTime 1 0 0 1).1 < 24 ∧
        1 ≤ (advanceTime 1 0 0 1).2 ∧ (advanceTime 1 0 0 1).2 ≤ 365) ∧
      (∃ k : ℤ, (advanceTime 1 0 0 1).1 + 24 * ((advanceTime 1 0 0 1).2 : ℝ) =
        0 + 0 * 1 + 24 * ((1 : ℤ) : ℝ) + 8760 * (k : ℝ)) ∧
      ((0 : ℝ) = 0 → advanceTime 1 0 0 1 = (0, 1))) :=
  ⟨le_refl 0, by norm_num, le_refl 1, by norm_num,
    advanceTime_range_carry_identity 1 0 0 1 (le_refl 0) (by norm_num)
      (le_refl 1) (by norm_num)⟩

/-! ### C9: the stored line distance -/

lemma haversine_LC_a_bounds :
    (0.4726 : ℝ) ≤ Real.sin (427 * π / 1800) * Real.sin (427 * π / 1800) +
        Real.cos (103 * π / 360) * Real.cos (113 * π / 600) *
          Real.sin (23 * π / 450) * Real.sin (23 * π / 450) ∧
      Real.sin (427 * π / 1800) * Real.sin (427 * π / 1800) +
        Real.cos (103 * π / 360) * Real.cos (113 * π / 600) *
          Real.sin (23 * π / 450) * Real.sin (23 * π / 450) ≤ 0.47358 := by
  have h1 := sin_427_1800
  have h2 := cos_103_360
  have h3 := cos_113_600
  have h4 := sin_23_450
  have hs1sq : (0.459511 : ℝ) ≤ Real.sin (427 * π / 1800) * Real.sin (427 * π / 1800) ∧
      Real.sin (427 * π / 1800) * Real.sin (427 * π / 1800) ≤ 0.460268 :=
    ⟨by nlinarith [h1.1, h1.2], by nlinarith [h1.1, h1.2]⟩
  have hc1c2 : (0.513533 : ℝ) ≤ Real.cos (103 * π / 360) * Real.cos (113 * π / 600) ∧
      Real.cos (103 * π / 360) * Real.cos (113 * π / 600) ≤ 0.520313 :=
    ⟨by nlinarith [h2.1, h2.2, h3.1, h3.2], by nlinarith [h2.1, h2.2, h3.1, h3.2]⟩
  have hs2sq : (0.0255488 : ℝ) ≤ Real.sin (23 * π / 450) * Real.sin (23 * π / 450) ∧
      Real.sin (23 * π / 450) * Real.sin (23 * π / 450) ≤ 0.0255745 :=
    ⟨by nlinarith [h4.1, h4.2], by nlinarith [h4.1, h4.2]⟩
  have hprod : (0.013120 : ℝ) ≤ Real.cos (103 * π / 360) * Real.cos (113 * π / 600) *
        Real.sin (23 * π / 450) * Real.sin (23 * π / 450) ∧
      Real.cos (103 * π / 360) * Real.cos (113 * π / 600) *
        Real.sin (23 * π / 450) * Real.sin (23 * π / 450) ≤ 0.013307 := by
    constructor
    · nlinarith [hc1c2.1, hc1c2.2, hs2sq.1, hs2sq.2]
    · nlinarith [hc1c2.1, hc1c2.2, hs2sq.1, hs2sq.2]
  constructor
  · linarith [hs1sq.1, hprod.1]
  · linarith [hs1sq.2, hprod.2]

lemma haversine_LC_bound : |haversineDistance London CapeTown - 9660| ≤ 25 := by
  have hab := haversine_LC_a_bounds
  have hLC : haversineDistance London CapeTown =
      6371 * (2 * atan2
        (Real.sqrt (Real.sin (427 * π / 1800) * Real.sin (427 * π / 1800) +
          Real.cos (103 * π / 360) * Real.cos (113 * π / 600) *
            Real.sin (23 * π / 450) * Real.sin (23 * π / 450)))
        (Real.sqrt (1 - (Real.sin (427 * π / 1800) * Real.sin (427 * π / 1800) +
          Real.cos (103 * π / 360) * Real.cos (113 * π / 600) *
            Real.sin (23 * π / 450) * Real.sin (23 * π / 450))))) := by
    simp only [haversineDistance, London, CapeTown]
    rw [show ((-33.9 : ℝ) - 51.5) * (π / 180) / 2 = -(427 * π / 1800) by ring,
      show ((18.4 : ℝ) - 0) * (π / 180) / 2 = 23 * π / 450 by ring,
      show (51.5 : ℝ) * (π / 180) = 103 * π / 360 by ring,
      show (-33.9 : ℝ) * (π / 180) = -(113 * π / 600) by ring,
      Real.sin_neg, Real.cos_neg]
    ring_nf
  rw [hLC]
  set a := Real.sin (427 * π / 1800) * Real.sin (427 * π / 1800) +
    Real.cos (103 * π / 360) * Real.cos (113 * π / 600) *
      Real.sin (23 * π / 450) * Real.sin (23 * π / 450) with ha_def
  clear_value a
  have ha0 : (0 : ℝ) ≤ a := by linarith [hab.1]
  have ha1 : a < 1 := by linarith [hab.2]
  have hx : 0 < Real.sqrt (1 - a) := Real.sqrt_pos.mpr (by linarith)
  rw [atan2_of_pos hx]
  have harcsin : Real.arcsin (Real.sqrt a) =
      Real.arctan (Real.sqrt a / Real.sqrt (1 - a)) := by
    rw [Real.arcsin_eq_arctan ⟨by nlinarith [Real.sqrt_nonneg a], by
      rw [show (1 : ℝ) = Real.sqrt 1 by rw [Real.sqrt_one]]
      exact Real.sqrt_lt_sqrt ha0 ha1⟩]
    rw [Real.sq_sqrt ha0]
  rw [← harcsin]
  have hπ3 := Real.pi_gt_three
  have hb1 := sin_b1
  have hb2 := sin_b2
  have hlow : (9635 : ℝ) / 12742 ≤ Real.arcsin (Real.sqrt a) := by
    have h1 : Real.sin (9635 / 12742) ≤ Real.sqrt a := by
      rw [show Real.sin ((9635 : ℝ) / 12742) =
        Real.sqrt (Real.sin (9635 / 12742) ^ 2) by
          rw [Real.sqrt_sq (by linarith [hb1.1])]]
      apply Real.sqrt_le_sqrt
      nlinarith [hb1.1, hb1.2]
    have h2 := Real.monotone_arcsin h1
    rwa [Real.arcsin_sin (by linarith) (by linarith)] at h2
  have hhigh : Real.arcsin (Real.sqrt a) ≤ (9685 : ℝ) / 12742 := by
    have h1 : Real.sqrt a ≤ Real.sin (9685 / 12742) := by
      rw [show Real.sin ((9685 : ℝ) / 12742) =
        Real.sqrt (Real.sin (9685 / 12742) ^ 2) by
          rw [Real.sqrt_sq (by linarith [hb2.1])]]
      apply Real.sqrt_le_sqrt
      nlinarith [hb2.1, hb2.2]
    have h2 := Real.monotone_arcsin h1
    rwa [Real.arcsin_sin (by linarith) (by linarith)] at h2
  rw [abs_le]
  constructor <;> nlinarith [hlow, hhigh]

lemma addLine_getLast (lines : List LineSegment) (s f : GeoCoordinates)
    (v : SourceView) (c i : String) :
    (addLine lines s f v c i).getLast? =
      some { id := i, start := s, finish := f, sourceView := v,
             color := LINE_COLORS.getD (lines.length % LINE_COLORS.length) "",
             distance := haversineDistance s f } := by
  simp only [addLine]
  exact List.getLast?_concat _

/-- C9: every line appended by `addLine` stores as its `distance` the
haversine distance of its two endpoints, whatever `sourceView` it was drawn
in; and for London (51.5, 0) to Cape Town (−33.9, 18.4) that distance is
9660 km to within 25 km (the exact value is ≈ 9664.7 km). -/
theorem addLine_distance_is_haversine :
    (∀ (lines : List LineSegment) (s f : GeoCoordinates) (v : SourceView)
      (c i : String),
      ((addLine lines s f v c i).getLast?).map LineSegment.distance =
        some (haversineDistance s f)) ∧
    |haversineDistance London CapeTown - 9660| ≤ 25 := by
  constructor
  · intro lines s f v c i
    rw [addLine_getLast]
    rfl
  · exact haversine_LC_bound

/-! ### C2: the azimuthal-drawn line reprojected on the globe -/

lemma toAz_London : toAzimuthal London = (0, 38.5) := by
  simp only [toAzimuthal, London]
  norm_num

lemma toAz_CapeTown :
    toAzimuthal CapeTown =
      (123.9 * Real.sin (23 * π / 225), 123.9 * Real.cos (23 * π / 225)) := by
  simp only [toAzimuthal, CapeTown]
  rw [show (18.4 : ℝ) * (π / 180) = 23 * π / 225 by ring]
  norm_num

lemma azLine_path :
    drawnLinePathPoints azLineLC =
      some ((List.range 101).filterMap fun i : ℕ =>
        fromAzimuthal ((0 : ℝ) + (i : ℝ) / 100 * (123.9 * Real.sin (23 * π / 225) - 0),
          38.5 + (i : ℝ) / 100 * (123.9 * Real.cos (23 * π / 225) - 38.5))) := by
  simp only [drawnLinePathPoints, azLineLC]
  simp only [toAz_London, toAz_CapeTown]

lemma az_sample_radius (i : ℕ) (hi : i < 101) :
    Real.sqrt (((0 : ℝ) + (i : ℝ) / 100 * (123.9 * Real.sin (23 * π / 225) - 0)) *
        ((0 : ℝ) + (i : ℝ) / 100 * (123.9 * Real.sin (23 * π / 225) - 0)) +
       (38.5 + (i : ℝ) / 100 * (123.9 * Real.cos (23 * π / 225) - 38.5)) *
        (38.5 + (i : ℝ) / 100 * (123.9 * Real.cos (23 * π / 225) - 38.5))) ≤ 180 := by
  set s := Real.sin (23 * π / 225) with hs_def
  set c := Real.cos (23 * π / 225) with hc_def
  set t : ℝ := (i : ℝ) / 100 with ht_def
  have ht0 : 0 ≤ t := by positivity
  have ht1 : t ≤ 1 := by
    rw [ht_def]
    rw [div_le_one (by norm_num)]
    exact_mod_cast Nat.lt_succ_iff.mp hi
  have hid : s ^ 2 + c ^ 2 = 1 := Real.sin_sq_add_cos_sq _
  have hs2 : s ^ 2 ≤ 1 := by nlinarith [sq_nonneg c]
  have hc2 : c ^ 2 ≤ 1 := by nlinarith [sq_nonneg s]
  have hc1 : c ≤ 1 := Real.cos_le_one _
  have hcm1 : -1 ≤ c := Real.neg_one_le_cos _
  have ht2 : t ^ 2 ≤ 1 := by nlinarith
  have hPx : ((0 : ℝ) + t * (123.9 * s - 0)) * ((0 : ℝ) + t * (123.9 * s - 0)) ≤
      15351.21 := by
    have h1 : t ^ 2 * s ^ 2 ≤ 1 * 1 :=
      mul_le_mul ht2 hs2 (sq_nonneg s) (by norm_num)
    nlinarith
  have hPyu : 38.5 + t * (123.9 * c - 38.5) ≤ 123.9 := by nlinarith
  have hPyl : -123.9 ≤ 38.5 + t * (123.9 * c - 38.5) := by nlinarith
  have hPy : (38.5 + t * (123.9 * c - 38.5)) * (38.5 + t * (123.9 * c - 38.5)) ≤
      15351.21 := by nlinarith
  have hX : ((0 : ℝ) + t * (123.9 * s - 0)) * ((0 : ℝ) + t * (123.9 * s - 0)) +
      (38.5 + t * (123.9 * c - 38.5)) * (38.5 + t * (123.9 * c - 38.5)) ≤
      32400 := by linarith
  calc Real.sqrt _ ≤ Real.sqrt 32400 := Real.sqrt_le_sqrt hX
    _ = 180 := by
      rw [show (32400 : ℝ) = 180 ^ 2 by norm_num, Real.sqrt_sq (by norm_num)]

lemma azPath_filterMap_eq_map :
    ((List.range 101).filterMap fun i : ℕ =>
        fromAzimuthal ((0 : ℝ) + (i : ℝ) / 100 * (123.9 * Real.sin (23 * π / 225) - 0),
          38.5 + (i : ℝ) / 100 * (123.9 * Real.cos (23 * π / 225) - 38.5))) =
      (List.range 101).map fun i : ℕ =>
        (⟨90 - Real.sqrt
            (((0 : ℝ) + (i : ℝ) / 100 * (123.9 * Real.sin (23 * π / 225) - 0)) *
              ((0 : ℝ) + (i : ℝ) / 100 * (123.9 * Real.sin (23 * π / 225) - 0)) +
             (38.5 + (i : ℝ) / 100 * (123.9 * Real.cos (23 * π / 225) - 38.5)) *
              (38.5 + (i : ℝ) / 100 * (123.9 * Real.cos (23 * π / 225) - 38.5))),
          atan2 ((0 : ℝ) + (i : ℝ) / 100 * (123.9 * Real.sin (23 * π / 225) - 0))
            (38.5 + (i : ℝ) / 100 * (123.9 * Real.cos (23 * π / 225) - 38.5)) *
            (180 / π)⟩ : GeoCoordinates) := by
  have hcongr := List.filterMap_congr (l := List.range 101)
    (f := fun i : ℕ =>
      fromAzimuthal ((0 : ℝ) + (i : ℝ) / 100 * (123.9 * Real.sin (23 * π / 225) - 0),
        38.5 + (i : ℝ) / 100 * (123.9 * Real.cos (23 * π / 225) - 38.5)))
    (g := fun i : ℕ => some
      (⟨90 - Real.sqrt
          (((0 : ℝ) + (i : ℝ) / 100 * (123.9 * Real.sin (23 * π / 225) - 0)) *
            ((0 : ℝ) + (i : ℝ) / 100 * (123.9 * Real.sin (23 * π / 225) - 0)) +
           (38.5 + (i : ℝ) / 100 * (123.9 * Real.cos (23 * π / 225) - 38.5)) *
            (38.5 + (i : ℝ) / 100 * (123.9 * Real.cos (23 * π / 225) - 38.5))),
        atan2 ((0 : ℝ) + (i : ℝ) / 100 * (123.9 * Real.sin (23 * π / 225) - 0))
          (38.5 + (i : ℝ) / 100 * (123.9 * Real.cos (23 * π / 225) - 38.5)) *
          (180 / π)⟩ : GeoCoordinates))
  rw [hcongr]
  · exact congrFun (List.filterMap_eq_map _) (List.range 101)
  · intro i hi
    have hi' : i < 101 := List.mem_range.mp hi
    simp only [fromAzimuthal]
    rw [if_pos (az_sample_radius i hi')]

lemma azMid_lon :
    (((drawnLinePathPoints azLineLC).getD []).getD 50 ⟨0, 0⟩).lon =
      atan2 ((50 : ℝ) / 100 * (123.9 * Real.sin (23 * π / 225)))
        (38.5 + (50 : ℝ) / 100 * (123.9 * Real.cos (23 * π / 225) - 38.5)) *
        (180 / π) := by
  rw [azLine_path]
  rw [Option.getD_some]
  rw [azPath_filterMap_eq_map]
  rw [List.getD_eq_getElem?_getD, List.getElem?_map, List.getElem?_range (by norm_num)]
  simp

set_option maxHeartbeats 2000000 in
/-- The 50th sample of the great-circle London–Cape Town path: its longitude
is `θ * (180/π)` for an angle `θ` whose sine is at most `0.19`. -/
lemma gcMid_lon_sin :
    ∃ θ : ℝ,
      (((greatCirclePoints London CapeTown 100).getD []).getD 50 ⟨0, 0⟩).lon =
          θ * (180 / π) ∧
        Real.sin θ ≤ 0.19 := by
  simp only [greatCirclePoints, London, CapeTown]
  simp only [show (51.5 : ℝ) * (π / 180) = 103 * π / 360 by ring,
    show (-33.9 : ℝ) * (π / 180) = -(113 * π / 600) by ring,
    show (0 : ℝ) * (π / 180) = 0 by ring,
    show (18.4 : ℝ) * (π / 180) = 23 * π / 225 by ring,
    sub_zero, Real.sin_neg, Real.cos_neg, Real.sin_zero, Real.cos_zero,
    mul_one, mul_zero, zero_add]
  set t := Real.sin (103 * π / 360) * -Real.sin (113 * π / 600) +
    Real.cos (103 * π / 360) * Real.cos (113 * π / 600) * Real.cos (23 * π / 225) with ht
  have hs1 : 0 ≤ Real.sin (103 * π / 360) :=
    Real.sin_nonneg_of_nonneg_of_le_pi (by positivity) (by nlinarith [Real.pi_pos])
  have hs1' : Real.sin (103 * π / 360) ≤ 1 := Real.sin_le_one _
  have hs2 : 0 ≤ Real.sin (113 * π / 600) :=
    Real.sin_nonneg_of_nonneg_of_le_pi (by positivity) (by nlinarith [Real.pi_pos])
  have hs2' : Real.sin (113 * π / 600) ≤ 0.5917 := by
    have h1 : |Real.sin (113 * π / 600)| ≤ |113 * π / 600| := abs_sin_le_abs _
    have h2 : |(113 : ℝ) * π / 600| = 113 * π / 600 := abs_of_nonneg (by positivity)
    have h3 : Real.sin (113 * π / 600) ≤ |Real.sin (113 * π / 600)| := le_abs_self _
    have hπ := Real.pi_lt_d6
    nlinarith
  have hc1 := cos_103_360
  have hc2 := cos_113_600
  have hcl := cos_23_225
  have hsl := sin_23_225
  have hc12a : Real.cos (103 * π / 360) * Real.cos (113 * π / 600) ≤ 0.520313 := by nlinarith
  have hc12b : (0.513532 : ℝ) ≤ Real.cos (103 * π / 360) * Real.cos (113 * π / 600) := by
    nlinarith
  have hs12 : Real.sin (103 * π / 360) * Real.sin (113 * π / 600) ≤ 0.5917 := by
    nlinarith [mul_nonneg (by linarith : (0 : ℝ) ≤ 1 - Real.sin (103 * π / 360)) hs2]
  have htub : t ≤ 0.61 := by
    rw [ht]
    nlinarith [mul_nonneg hs1 hs2,
      mul_nonneg (sub_nonneg.mpr hc12a) (sub_nonneg.mpr hcl.2)]
  have htlb : (-0.61 : ℝ) ≤ t := by
    rw [ht]
    nlinarith [mul_nonneg (sub_nonneg.mpr hc12b) (sub_nonneg.mpr hcl.1)]
  clear_value t
  have hsd : 0 < Real.sin (Real.arccos t) := by
    rw [Real.sin_arccos]
    apply Real.sqrt_pos.mpr
    nlinarith [mul_nonneg (by linarith : (0 : ℝ) ≤ 0.61 - t)
      (by linarith : (0 : ℝ) ≤ t + 0.61)]
  refine ⟨atan2
      (Real.sin (50 / 100 * Real.arccos t) / Real.sin (Real.arccos t) *
        Real.cos (113 * π / 600) * Real.sin (23 * π / 225))
      (Real.sin ((1 - 50 / 100) * Real.arccos t) / Real.sin (Real.arccos t) *
          Real.cos (103 * π / 360) +
        Real.sin (50 / 100 * Real.arccos t) / Real.sin (Real.arccos t) *
          Real.cos (113 * π / 600) * Real.cos (23 * π / 225)), ?_, ?_⟩
  · rw [if_neg (by push_neg; exact ⟨hsd.ne', by norm_num⟩)]
    rw [Option.getD_some]
    rw [List.getD_eq_getElem?_getD, List.getElem?_map, List.getElem?_range (by norm_num)]
    simp
  · rw [show ((1 : ℝ) - 50 / 100) = 50 / 100 by norm_num]
    have hd0 : 0 < Real.arccos t := Real.arccos_pos.mpr (by linarith)
    have hdπ : Real.arccos t ≤ π := Real.arccos_le_pi t
    have hBnum : 0 < Real.sin (50 / 100 * Real.arccos t) :=
      Real.sin_pos_of_pos_of_lt_pi (by linarith) (by linarith [Real.pi_pos])
    have hB : 0 < Real.sin (50 / 100 * Real.arccos t) / Real.sin (Real.arccos t) :=
      div_pos hBnum hsd
    set B := Real.sin (50 / 100 * Real.arccos t) / Real.sin (Real.arccos t) with hBdef
    clear_value B
    have hc1p : (0 : ℝ) < Real.cos (103 * π / 360) := by linarith [hc1.1]
    have hc2p : (0 : ℝ) < Real.cos (113 * π / 600) := by linarith [hc2.1]
    have hclp : (0 : ℝ) < Real.cos (23 * π / 225) := by linarith [hcl.1]
    have hslp : (0 : ℝ) < Real.sin (23 * π / 225) := by linarith [hsl.1]
    have hX : 0 < B * Real.cos (103 * π / 360) +
        B * Real.cos (113 * π / 600) * Real.cos (23 * π / 225) := by
      linarith [mul_pos hB hc1p, mul_pos (mul_pos hB hc2p) hclp]
    have hY : 0 ≤ B * Real.cos (113 * π / 600) * Real.sin (23 * π / 225) :=
      (mul_pos (mul_pos hB hc2p) hslp).le
    rw [sin_atan2 (Or.inl hX.ne')]
    have hsqX : B * Real.cos (103 * π / 360) +
        B * Real.cos (113 * π / 600) * Real.cos (23 * π / 225) ≤
        Real.sqrt ((B * Real.cos (103 * π / 360) +
            B * Real.cos (113 * π / 600) * Real.cos (23 * π / 225)) ^ 2 +
          (B * Real.cos (113 * π / 600) * Real.sin (23 * π / 225)) ^ 2) := by
      calc B * Real.cos (103 * π / 360) +
            B * Real.cos (113 * π / 600) * Real.cos (23 * π / 225) =
          Real.sqrt ((B * Real.cos (103 * π / 360) +
              B * Real.cos (113 * π / 600) * Real.cos (23 * π / 225)) ^ 2) :=
            (Real.sqrt_sq hX.le).symm
        _ ≤ _ := Real.sqrt_le_sqrt
            (by linarith [sq_nonneg (B * Real.cos (113 * π / 600) * Real.sin (23 * π / 225))])
    have hsq0 : 0 < Real.sqrt ((B * Real.cos (103 * π / 360) +
        B * Real.cos (113 * π / 600) * Real.cos (23 * π / 225)) ^ 2 +
        (B * Real.cos (113 * π / 600) * Real.sin (23 * π / 225)) ^ 2) :=
      lt_of_lt_of_le hX hsqX
    rw [div_le_iff₀ hsq0]
    have hkey : Real.cos (113 * π / 600) * Real.sin (23 * π / 225) ≤
        0.19 * (Real.cos (103 * π / 360) +
          Real.cos (113 * π / 600) * Real.cos (23 * π / 225)) := by
      linarith [mul_nonneg (sub_nonneg.mpr hc2.2) hslp.le,
        mul_nonneg (sub_nonneg.mpr hc2.1) (sub_nonneg.mpr hcl.1), hc1.1, hc2.1, hc2.2,
        hcl.1, hsl.2]
    have hYX : B * Real.cos (113 * π / 600) * Real.sin (23 * π / 225) ≤
        0.19 * (B * Real.cos (103 * π / 360) +
          B * Real.cos (113 * π / 600) * Real.cos (23 * π / 225)) := by
      linarith [mul_le_mul_of_nonneg_left hkey hB.le]
    linarith [hsqX, hYX]

/-- The sine of the polar angle of the azimuthal midpoint sample is at
least `0.24`. -/
lemma azMid_sin :
    (0.24 : ℝ) ≤ Real.sin (atan2 ((50 : ℝ) / 100 * (123.9 * Real.sin (23 * π / 225)))
      (38.5 + (50 : ℝ) / 100 * (123.9 * Real.cos (23 * π / 225) - 38.5))) := by
  have hsl := sin_23_225
  have hcl := cos_23_225
  set Py := (50 : ℝ) / 100 * (123.9 * Real.sin (23 * π / 225)) with hPy
  set Px := (38.5 : ℝ) + 50 / 100 * (123.9 * Real.cos (23 * π / 225) - 38.5) with hPx
  have hPyb : (19.5179 : ℝ) ≤ Py ∧ Py ≤ 19.5874 := by
    rw [hPy]; constructor <;> nlinarith
  have hPxb : (77.9711 : ℝ) ≤ Px ∧ Px ≤ 78.04 := by
    rw [hPx]; constructor <;> nlinarith
  clear_value Py Px
  have hPx0 : (0 : ℝ) < Px := by linarith [hPxb.1]
  have hsq : Real.sqrt (Px ^ 2 + Py ^ 2) ≤ 80.47 := by
    rw [show (80.47 : ℝ) = Real.sqrt (80.47 ^ 2) from (Real.sqrt_sq (by norm_num)).symm]
    exact Real.sqrt_le_sqrt (by nlinarith [hPxb.1, hPxb.2, hPyb.1, hPyb.2])
  have hsq0 : 0 < Real.sqrt (Px ^ 2 + Py ^ 2) :=
    Real.sqrt_pos.mpr (by nlinarith [hPyb.1])
  rw [sin_atan2 (Or.inl hPx0.ne')]
  rw [le_div_iff₀ hsq0]
  nlinarith [hsq, hPyb.1, hsq0]

/-- At the midpoint sample (i = 50) the longitude of the azimuthal-drawn
London–Cape Town line differs from the longitude of the 50th
great-circle sample by more than 2 degrees. -/
lemma midpoint_lon_gap :
    2 < |(((drawnLinePathPoints azLineLC).getD []).getD 50 ⟨0, 0⟩).lon -
        (((greatCirclePoints London CapeTown 100).getD []).getD 50 ⟨0, 0⟩).lon| := by
  obtain ⟨θg, hg, hgs⟩ := gcMid_lon_sin
  rw [azMid_lon, hg]
  set θa := atan2 ((50 : ℝ) / 100 * (123.9 * Real.sin (23 * π / 225)))
    (38.5 + (50 : ℝ) / 100 * (123.9 * Real.cos (23 * π / 225) - 38.5)) with hθa
  have has : (0.24 : ℝ) ≤ Real.sin θa := azMid_sin
  have hπpos : (0 : ℝ) < π := Real.pi_pos
  have hdiff : (0.05 : ℝ) ≤ |θa - θg| := by
    have h1 := abs_sin_sub_sin_le θa θg
    have h2 : (0.05 : ℝ) ≤ Real.sin θa - Real.sin θg := by linarith
    calc (0.05 : ℝ) ≤ Real.sin θa - Real.sin θg := h2
      _ ≤ |Real.sin θa - Real.sin θg| := le_abs_self _
      _ ≤ |θa - θg| := h1
  rw [show θa * (180 / π) - θg * (180 / π) = (θa - θg) * (180 / π) by ring, abs_mul,
    abs_of_pos (by positivity : (0 : ℝ) < 180 / π)]
  have h3 : (2 : ℝ) < 0.05 * (180 / π) := by
    rw [show (0.05 : ℝ) * (180 / π) = 9 / π by field_simp; ring]
    rw [lt_div_iff₀ hπpos]
    nlinarith [Real.pi_lt_d6]
  have h4 : (0.05 : ℝ) * (180 / π) ≤ |θa - θg| * (180 / π) :=
    mul_le_mul_of_nonneg_right hdiff (by positivity)
  linarith

/-! ### C2: azimuthal-drawn line vs. great circle -/

/-- C2 (counterexample): the London–Cape Town line drawn on the azimuthal
view, reprojected onto the sphere by `DrawnLine`, does not coincide with
`greatCirclePoints London CapeTown 100` within any sub-degree tolerance: at
the midpoint sample (i = 50) the longitudes differ by more than 2 degrees
(the azimuthal path passes near 14.1°E, the great circle near 10.5°E). -/
theorem azimuthal_line_midpoint_off_great_circle :
    2 < |(((drawnLinePathPoints azLineLC).getD []).getD 50 ⟨0, 0⟩).lon -
        (((greatCirclePoints London CapeTown 100).getD []).getD 50 ⟨0, 0⟩).lon| :=
  midpoint_lon_gap

/-- C2 (amended): only a line drawn on the globe view has
`greatCirclePoints start end 100` as its sphere path; for an
azimuthal-drawn line `DrawnLine` inverse-projects the straight planar chord
between the projected endpoints, which for London–Cape Town deviates from
the 50th great-circle sample by more than 2 degrees of longitude. -/
theorem drawnLine_great_circle_only_for_globe :
    (∀ (i c : String) (s f : GeoCoordinates) (dist : ℝ),
        drawnLinePathPoints ⟨i, s, f, SourceView.globe, c, dist⟩ =
          greatCirclePoints s f 100) ∧
      2 < |(((drawnLinePathPoints azLineLC).getD []).getD 50 ⟨0, 0⟩).lon -
          (((greatCirclePoints London CapeTown 100).getD []).getD 50 ⟨0, 0⟩).lon| :=
  ⟨fun _ _ _ _ _ => rfl, midpoint_lon_gap⟩

end
